import Mathlib

/-!
Verification development for the STM32H5xx HAL ADC extended driver
(`Src/stm32h5xx_hal_adc_ex.c`).

The driver's per-instance mutable state (HAL handle software state, the
relevant hardware registers of the ADC instance, the common multimode
registers, and the injected-context staging area) is embedded as the
structure `ADC`.  Each public HAL function of the source unit that the
claims touch is translated into a Lean function `ADC → ... → HALStatus × ADC`
mirroring the source control flow statement by statement.

Collaborators that live in other files of this repository
(`stm32h5xx_hal_adc.c`, the LL drivers and the HAL lock macros) are not
under `src/`; those are modelled from the specification (sections 4.1,
4.4, 5 and 6 of the spec) and are each marked `Modelled from the spec:`
in their doc comment.  Hardware outcomes of their bounded waits are made
explicit through dedicated fault-injection fields (`faultEnable`,
`faultDisable`, ...) of the state: a fault field set to `false` means the
corresponding hardware confirmation arrives in time.
-/

/-- HAL return status, mirroring `HAL_StatusTypeDef`
(`HAL_OK`, `HAL_ERROR`, `HAL_BUSY`, `HAL_TIMEOUT`). -/
inductive HALStatus where
  | ok
  | error
  | busy
  | timeout
deriving DecidableEq, Repr

/-- Conversion group selector, mirroring `ADC_REGULAR_GROUP`,
`ADC_INJECTED_GROUP`, `ADC_REGULAR_INJECTED_GROUP`. -/
inductive ConvGroup where
  | regular
  | injected
  | regularInjected
deriving DecidableEq, Repr

/-- Calibration input mode, mirroring `ADC_SINGLE_ENDED` /
`ADC_DIFFERENTIAL_ENDED`. -/
inductive SingleDiff where
  | single
  | differential
deriving DecidableEq, Repr

/-- Multimode configuration of the common ADC group as read by
`LL_ADC_GetMultimode`.  The source only distinguishes
`LL_ADC_MULTI_INDEPENDENT`, `LL_ADC_MULTI_DUAL_REG_SIMULT`,
`LL_ADC_MULTI_DUAL_REG_INTERL` and "any other (injected-involving) dual
mode", so the embedding does the same. -/
inductive MMode where
  | independent
  | dualRegSimult
  | dualRegInterl
  | dualInjected
deriving DecidableEq, Repr

/-- The bits of the instance configuration register `CFGR` that the
source unit reads or writes (`JQDIS`, `JQM`, `JAUTO`, `CONT`, `AUTDLY`,
`JDISCEN`), plus `extenNone`, the statement "the regular-group external
trigger field EXTEN of CFGR is zero" read by
`LL_ADC_REG_IsTriggerSourceSWStart`. -/
structure CFGRbits where
  jqdis : Bool
  jqm : Bool
  jauto : Bool
  cont : Bool
  autdly : Bool
  jdiscen : Bool
  extenNone : Bool
deriving DecidableEq, Repr

/-- Register-level side effects of the LL collaborator calls of
`HAL_ADCEx_InjectedConfigChannel` that act on registers outside the
state machine (sampling time, offsets, single/differential selection,
internal measurement paths).  Modelled from the spec: section 4.3 treats
these as "applied immediately if the relevant hardware constraint is
met"; the embedding records each applied call with its arguments. -/
inductive ExtWrite where
  | chan0PathEnable
  | samplingTime (channel time : Nat)
  | samplingCommonCfg (cfg : Nat)
  | offsetSet (num channel value sign : Nat) (saturation : Bool)
  | offsetDisable (num : Nat)
  | singleDiffSel (channel : Nat) (differential : Bool)
  | vddcorePath
deriving DecidableEq, Repr

/-- The per-instance state: HAL handle software state (one Bool per
`HAL_ADC_STATE_*` / `HAL_ADC_ERROR_*` bit), the hardware registers the
source unit touches, the injected-context staging area
(`hadc->InjectionConfig`), the slave/common-group view used by the
multimode functions, and the fault-injection switches for the modelled
collaborators. -/
structure ADC where
  /-- `hadc->Lock` (`HAL_LOCKED` = `true`). -/
  lock : Bool
  -- `hadc->State` bits
  /-- `HAL_ADC_STATE_READY`. -/
  stReady : Bool
  /-- `HAL_ADC_STATE_BUSY_INTERNAL`. -/
  stBusyInternal : Bool
  /-- `HAL_ADC_STATE_TIMEOUT`. -/
  stTimeout : Bool
  /-- `HAL_ADC_STATE_ERROR_INTERNAL`. -/
  stErrInternal : Bool
  /-- `HAL_ADC_STATE_ERROR_CONFIG`. -/
  stErrConfig : Bool
  /-- `HAL_ADC_STATE_ERROR_DMA`. -/
  stErrDMA : Bool
  /-- `HAL_ADC_STATE_REG_BUSY`. -/
  stRegBusy : Bool
  /-- `HAL_ADC_STATE_REG_EOC`. -/
  stRegEOC : Bool
  /-- `HAL_ADC_STATE_REG_OVR`. -/
  stRegOVR : Bool
  /-- `HAL_ADC_STATE_REG_EOSMP`. -/
  stRegEOSMP : Bool
  /-- `HAL_ADC_STATE_INJ_BUSY`. -/
  stInjBusy : Bool
  /-- `HAL_ADC_STATE_INJ_EOC`. -/
  stInjEOC : Bool
  /-- `HAL_ADC_STATE_INJ_JQOVF`. -/
  stInjJQOVF : Bool
  /-- `HAL_ADC_STATE_MULTIMODE_SLAVE`. -/
  stMMSlave : Bool
  -- `hadc->ErrorCode` bits
  /-- `HAL_ADC_ERROR_INTERNAL`. -/
  errInternal : Bool
  /-- `HAL_ADC_ERROR_OVR`. -/
  errOVR : Bool
  /-- `HAL_ADC_ERROR_DMA`. -/
  errDMA : Bool
  /-- `HAL_ADC_ERROR_JQOVF`. -/
  errJQOVF : Bool
  -- `hadc->Init` parameters read by this unit
  /-- `hadc->Init.ScanConvMode != ADC_SCAN_DISABLE`. -/
  scanConvModeEnabled : Bool
  /-- `hadc->Init.EOCSelection == ADC_EOC_SEQ_CONV`. -/
  eocSeq : Bool
  /-- `hadc->Init.DMAContinuousRequests == ENABLE`. -/
  dmaContinuousRequests : Bool
  -- hardware state of the instance
  /-- Analog core enabled (`ADEN`/`ADRDY`), as read by `LL_ADC_IsEnabled`. -/
  adcEnabled : Bool
  /-- Regular conversion ongoing (`ADSTART`), `LL_ADC_REG_IsConversionOngoing`. -/
  regOngoing : Bool
  /-- Injected conversion ongoing (`JADSTART`), `LL_ADC_INJ_IsConversionOngoing`. -/
  injOngoing : Bool
  /-- Injected context register `JSQR` (32-bit word). -/
  jsqr : Nat
  /-- Instance configuration register `CFGR` bits used by this unit. -/
  cfgr : CFGRbits
  /-- `CFGR2.JOVSE` (injected oversampling enable). -/
  cfgr2jovse : Bool
  /-- `CFGR2.OVSR` (oversampling ratio field). -/
  ovsR : Nat
  /-- `CFGR2.OVSS` (oversampling shift field). -/
  ovsS : Nat
  /-- Status flag `ISR.JEOC`. -/
  isrJEOC : Bool
  /-- Status flag `ISR.JEOS`. -/
  isrJEOS : Bool
  -- interrupt enable bits (`IER`)
  /-- `IER.JEOCIE`. -/
  itJEOC : Bool
  /-- `IER.JEOSIE`. -/
  itJEOS : Bool
  /-- `IER.JQOVFIE`. -/
  itJQOVF : Bool
  /-- `IER.OVRIE`. -/
  itOVR : Bool
  /-- Calibration factor for single-ended mode (7-bit `CALFACT` field). -/
  calFactS : Nat
  /-- Calibration factor for differential mode (7-bit `CALFACT` field). -/
  calFactD : Nat
  /-- Number of polls of `LL_ADC_IsCalibrationOnGoing` that still report
  "ongoing" once calibration has been started (hardware calibration
  duration in loop iterations). -/
  calibCycles : Nat
  /-- `hadc->InjectionConfig.ChannelCount`. -/
  injChannelCount : Nat
  /-- `hadc->InjectionConfig.ContextQueue`. -/
  injContextQueue : Nat
  -- offset registers `OFR1..OFR4`: assigned channel and enable bit
  ofrCh1 : Nat
  ofrCh2 : Nat
  ofrCh3 : Nat
  ofrCh4 : Nat
  ofrEn1 : Bool
  ofrEn2 : Bool
  ofrEn3 : Bool
  ofrEn4 : Bool
  -- common internal measurement paths (`CCR.TSEN/VBATEN/VREFEN`)
  pathTempSensor : Bool
  pathVbat : Bool
  pathVrefint : Bool
  -- instance capabilities (`ADC_TEMPERATURE_SENSOR_INSTANCE` etc.)
  instTempSensor : Bool
  instVbat : Bool
  instVrefint : Bool
  instVddcore : Bool
  /-- Log of register side effects applied through the LL collaborators
  (most recent first). -/
  extWrites : List ExtWrite
  -- multimode pairing view
  /-- `__LL_ADC_MULTI_INSTANCE_MASTER(hadc->Instance) == hadc->Instance`. -/
  isMaster : Bool
  /-- `LL_ADC_GetMultimode` of the common instance. -/
  mmConfig : MMode
  /-- `CFGR` bits of the master instance (read when this instance is a
  multimode slave). -/
  masterCfgr : CFGRbits
  /-- `ADC_MULTI_SLAVE` found a slave instance (`tmp_hadc_slave.Instance != NULL`). -/
  slaveExists : Bool
  /-- Analog core of the paired slave instance enabled. -/
  slaveEnabled : Bool
  /-- Regular conversion ongoing on the paired slave instance. -/
  slaveRegOngoing : Bool
  /-- Injected conversion ongoing on the paired slave instance. -/
  slaveInjOngoing : Bool
  -- common register CCR fields
  /-- `CCR.MDMA` (multimode DMA access field). -/
  ccrMdma : Nat
  /-- `CCR.DMACFG` (multimode DMA continuous-request bit). -/
  ccrDmacfg : Bool
  /-- `CCR.DUAL` (dual-mode selection field). -/
  ccrDual : Nat
  /-- `CCR.DELAY` (inter-sample delay field). -/
  ccrDelay : Nat
  /-- The shared DMA channel is active (cleared by a successful abort). -/
  dmaActive : Bool
  -- fault injection for the modelled collaborators
  /-- `ADC_Enable`'s wait for core ready times out. -/
  faultEnable : Bool
  /-- `ADC_Disable`'s wait for effective disable times out. -/
  faultDisable : Bool
  /-- `ADC_Disable` of the paired slave instance times out. -/
  faultSlaveDisable : Bool
  /-- `ADC_ConversionStop`'s wait for confirmed stop times out. -/
  faultStop : Bool
  /-- `HAL_DMA_Abort` reports a transfer-engine failure. -/
  faultDMAAbort : Bool
deriving DecidableEq, Repr

/-- `HAL_MAX_DELAY`: poll timeout value meaning "wait forever". -/
def HAL_MAX_DELAY : Nat := 0xFFFFFFFF

/-- `ADC_CALIBRATION_TIMEOUT` (633600000UL): bound on the calibration
busy-wait iteration count, sized for the worst-case ~1.32 s calibration
at the lowest rated ADC clock, counted in CPU cycles at 480 MHz. -/
def ADC_CALIBRATION_TIMEOUT : Nat := 633600000

/-- All ones on 32 bits, for register bit complements. -/
def mask32 : Nat := 0xFFFFFFFF

/-- `MODIFY_REG(reg, mask, value)`: clear the bits of `mask`, then OR in
`value` (32-bit read-modify-write). -/
def modifyReg (reg mask value : Nat) : Nat :=
  (reg &&& (mask32 ^^^ mask)) ||| value

/-- `ADC_JSQR_RK(channel, rank)`.  Modelled from the spec: the macro
itself lives in the HAL header (not under `src/`); per the spec's data
model a context holds one 5-bit channel field per rank.  The STM32H5
`JSQR` layout is used: `JL` in bits 1:0, `JEXTSEL` in bits 6:2, `JEXTEN`
in bits 8:7, and `JSQ1..JSQ4` as 5-bit fields at bits 9, 15, 21, 27. -/
def jsqrRK (channel rank : Nat) : Nat :=
  (channel % 32) <<< (9 + 6 * (rank - 1))

/-- The `JEXTEN` field (bits 8:7) of a `JSQR` register value, as read by
`READ_BIT(hadc->Instance->JSQR, ADC_JSQR_JEXTEN)` and (for its zero
test) by `LL_ADC_INJ_IsTriggerSourceSWStart`. -/
def jexten (jsqr : Nat) : Nat :=
  (jsqr >>> 7) % 4

/-- `ADC_JSQR_FIELDS`: the `JSQR` fields written on a context commit
(`JL | JEXTSEL | JEXTEN | JSQ1 | JSQ2 | JSQ3 | JSQ4`). -/
def ADC_JSQR_FIELDS : Nat :=
  0x3 ||| 0x7C ||| 0x180 ||| (0x1F <<< 9) ||| (0x1F <<< 15) ||| (0x1F <<< 21) ||| (0x1F <<< 27)

/-- Clear the 5-bit channel field of `rank` in a context word:
`tmp &= ~ADC_JSQR_RK(ADC_SQR3_SQ10, rank)` (that macro argument is the
all-ones 5-bit channel mask). -/
def clearRank (ctx rank : Nat) : Nat :=
  ctx &&& (mask32 ^^^ jsqrRK 31 rank)

/-- Modelled from the spec: `ADC_Enable` of `stm32h5xx_hal_adc.c`
(section 4.1's `enable`): arms the analog core and blocks for the
core-ready confirmation under the timeout discipline; already-enabled is
a success; a timeout marks the instance internally errored. -/
def ADC_Enable (s : ADC) : HALStatus × ADC :=
  if s.adcEnabled then (.ok, s)
  else if s.faultEnable then
    (.error, { s with stErrInternal := true, errInternal := true })
  else (.ok, { s with adcEnabled := true })

/-- Modelled from the spec: `ADC_Disable` of `stm32h5xx_hal_adc.c`
(section 4.1's `disable_if_idle`): fails with `Busy` if a conversion is
ongoing on either group; already-disabled is a success; otherwise issues
the disable and blocks for confirmation, and on timeout reports
`Timeout` and marks the instance `ErrorInternal`. -/
def ADC_Disable (s : ADC) : HALStatus × ADC :=
  if s.regOngoing || s.injOngoing then (.busy, s)
  else if !s.adcEnabled then (.ok, s)
  else if s.faultDisable then (.timeout, { s with stErrInternal := true })
  else (.ok, { s with adcEnabled := false })

/-- Modelled from the spec: `ADC_Disable` applied to the temporary slave
handle built by `ADC_MULTI_SLAVE` (section 4.1 applied to the paired
instance).  State bits written to the temporary handle are discarded by
the source, so only the slave's hardware enable flag is affected. -/
def ADC_DisableSlave (s : ADC) : HALStatus × ADC :=
  if s.slaveRegOngoing || s.slaveInjOngoing then (.busy, s)
  else if !s.slaveEnabled then (.ok, s)
  else if s.faultSlaveDisable then (.timeout, s)
  else (.ok, { s with slaveEnabled := false })

/-- Modelled from the spec: `ADC_ConversionStop` of
`stm32h5xx_hal_adc.c` (section 4.4's `stop` request: "requests hardware
stop, blocks for confirmed stop" under the timeout discipline).  On
confirmation the selected group(s) of this instance are no longer
converting; on timeout the instance is marked internally errored. -/
def ADC_ConversionStop (s : ADC) (group : ConvGroup) : HALStatus × ADC :=
  if s.faultStop then (.timeout, { s with stErrInternal := true })
  else
    match group with
    | .regular => (.ok, { s with regOngoing := false })
    | .injected => (.ok, { s with injOngoing := false })
    | .regularInjected => (.ok, { s with regOngoing := false, injOngoing := false })

/-- Modelled from the spec: `HAL_DMA_Abort` (section 6's bulk-transfer
engine `abort`, idempotent on an already-idle transfer). -/
def HAL_DMA_Abort (s : ADC) : HALStatus × ADC :=
  if s.faultDMAAbort then (.error, s)
  else (.ok, { s with dmaActive := false })

/-- Modelled from the spec: `LL_ADC_GetCalibrationFactor` (the stored
correction value per input mode, spec section 4.2). -/
def LL_ADC_GetCalibrationFactor (s : ADC) (mode : SingleDiff) : Nat :=
  match mode with
  | .single => s.calFactS
  | .differential => s.calFactD

/-- Modelled from the spec: `LL_ADC_SetCalibrationFactor` writes the
7-bit `CALFACT` field of the selected mode. -/
def LL_ADC_SetCalibrationFactor (s : ADC) (mode : SingleDiff) (v : Nat) : ADC :=
  match mode with
  | .single => { s with calFactS := v % 128 }
  | .differential => { s with calFactD := v % 128 }

/-- The calibration completion busy-wait of
`HAL_ADCEx_Calibration_Start` (lines 150-165): while
`LL_ADC_IsCalibrationOnGoing` reports ongoing, increment
`wait_loop_index` and fail once it reaches `ADC_CALIBRATION_TIMEOUT`.
`ongoing` counts the polls that still report "ongoing"; returns `true`
iff the loop exits by completion (not by timeout). -/
def calibWait (ongoing : Nat) (waitLoopIndex : Nat) : Bool :=
  match ongoing with
  | 0 => true
  | c + 1 =>
    if ADC_CALIBRATION_TIMEOUT ≤ waitLoopIndex + 1 then false
    else calibWait c (waitLoopIndex + 1)

/-- `HAL_ADCEx_Calibration_Start` (lines 121-185). -/
def HAL_ADCEx_Calibration_Start (s : ADC) (_singleDiff : SingleDiff) : HALStatus × ADC :=
  -- __HAL_LOCK
  if s.lock then (.busy, s)
  else
    let s := { s with lock := true }
    -- Disable the ADC (if not already disabled)
    let p := ADC_Disable s
    if p.1 = .ok then
      let s := p.2
      -- ADC_STATE_CLR_SET(State, REG_BUSY | INJ_BUSY, BUSY_INTERNAL)
      let s := { s with stRegBusy := false, stInjBusy := false, stBusyInternal := true }
      -- LL_ADC_StartCalibration; wait for completion
      if calibWait s.calibCycles 0 then
        -- ADC_STATE_CLR_SET(State, BUSY_INTERNAL, READY)
        let s := { s with stBusyInternal := false, stReady := true }
        (.ok, { s with lock := false })
      else
        -- ADC_STATE_CLR_SET(State, BUSY_INTERNAL, ERROR_INTERNAL); return HAL_ERROR
        let s := { s with stBusyInternal := false, stErrInternal := true }
        (.error, { s with lock := false })
    else
      -- SET_BIT(State, ERROR_INTERNAL); status from the failed disable
      (p.1, { p.2 with stErrInternal := true, lock := false })

/-- `HAL_ADCEx_Calibration_GetValue` (lines 195-203). -/
def HAL_ADCEx_Calibration_GetValue (s : ADC) (mode : SingleDiff) : Nat :=
  LL_ADC_GetCalibrationFactor s mode

/-- `HAL_ADCEx_Calibration_SetValue` (lines 215-259). -/
def HAL_ADCEx_Calibration_SetValue (s : ADC) (mode : SingleDiff) (v : Nat) :
    HALStatus × ADC :=
  if s.lock then (.busy, s)
  else
    let s := { s with lock := true }
    if s.adcEnabled && !s.regOngoing && !s.injOngoing then
      let s := LL_ADC_SetCalibrationFactor s mode v
      (.ok, { s with lock := false })
    else
      let s := { s with stErrConfig := true, errInternal := true }
      (.error, { s with lock := false })

/-- The condition `__LL_ADC_MULTI_INSTANCE_MASTER(inst) == inst ||
tmp_multimode_config == LL_ADC_MULTI_INDEPENDENT ||
tmp_multimode_config == LL_ADC_MULTI_DUAL_REG_SIMULT ||
tmp_multimode_config == LL_ADC_MULTI_DUAL_REG_INTERL`: the instance is
not a multimode slave with multimode injected conversions enabled. -/
def notMMSlaveInjected (s : ADC) : Bool :=
  s.isMaster || s.mmConfig == .independent || s.mmConfig == .dualRegSimult
    || s.mmConfig == .dualRegInterl

/-- `HAL_ADCEx_InjectedStart` (lines 272-403). -/
def HAL_ADCEx_InjectedStart (s : ADC) : HALStatus × ADC :=
  if s.injOngoing then (.busy, s)
  else if jexten s.jsqr == 0 && !s.cfgr.jqdis then
    -- SET_BIT(State, ERROR_CONFIG); return HAL_ERROR
    (.error, { s with stErrConfig := true })
  else if s.lock then (.busy, s)  -- __HAL_LOCK
  else
    let s := { s with lock := true }
    let p := ADC_Enable s
    if p.1 = .ok then
      let s := p.2
      -- reset error code (only JQOVF if a regular conversion is ongoing)
      let s :=
        if s.stRegBusy then { s with errJQOVF := false }
        else { s with errInternal := false, errOVR := false, errDMA := false,
                      errJQOVF := false }
      -- ADC_STATE_CLR_SET(State, READY | INJ_EOC, INJ_BUSY)
      let s := { s with stReady := false, stInjEOC := false, stInjBusy := true }
      -- clear MULTIMODE_SLAVE if master or independent
      let s :=
        if s.isMaster || s.mmConfig == .independent then { s with stMMSlave := false }
        else s
      -- __HAL_ADC_CLEAR_FLAG(JEOC | JEOS)
      let s := { s with isrJEOC := false, isrJEOS := false }
      -- __HAL_UNLOCK before arming the conversion
      let s := { s with lock := false }
      if notMMSlaveInjected s then
        -- LL_ADC_INJ_StartConversion unless auto-injection is configured
        if !s.cfgr.jauto then (.ok, { s with injOngoing := true })
        else (.ok, s)
      else
        (.ok, { s with stMMSlave := true })
    else
      (p.1, { p.2 with lock := false })

/-- `HAL_ADCEx_InjectedStart_IT` (lines 617-769). -/
def HAL_ADCEx_InjectedStart_IT (s : ADC) : HALStatus × ADC :=
  if s.injOngoing then (.busy, s)
  else if jexten s.jsqr == 0 && !s.cfgr.jqdis then
    (.error, { s with stErrConfig := true })
  else if s.lock then (.busy, s)
  else
    let s := { s with lock := true }
    let p := ADC_Enable s
    if p.1 = .ok then
      let s := p.2
      let s :=
        if s.stRegBusy then { s with errJQOVF := false }
        else { s with errInternal := false, errOVR := false, errDMA := false,
                      errJQOVF := false }
      let s := { s with stReady := false, stInjEOC := false, stInjBusy := true }
      let s :=
        if s.isMaster || s.mmConfig == .independent then { s with stMMSlave := false }
        else s
      let s := { s with isrJEOC := false, isrJEOS := false }
      let s := { s with lock := false }
      -- enable queue-overflow interrupt if the context queue feature is active
      let s := if s.cfgr.jqm then { s with itJQOVF := true } else s
      -- enable the end-of-conversion interrupt per EOCSelection
      let s :=
        if s.eocSeq then { s with itJEOC := false, itJEOS := true }
        else { s with itJEOS := false, itJEOC := true }
      if notMMSlaveInjected s then
        if !s.cfgr.jauto then (.ok, { s with injOngoing := true })
        else (.ok, s)
      else
        (.ok, { s with stMMSlave := true })
    else
      (p.1, { p.2 with lock := false })

/-- `HAL_ADCEx_InjectedStop` (lines 421-466). -/
def HAL_ADCEx_InjectedStop (s : ADC) : HALStatus × ADC :=
  if s.lock then (.busy, s)
  else
    let s := { s with lock := true }
    -- 1. stop potential conversion on going on injected group only
    let p := ADC_ConversionStop s .injected
    if p.1 = .ok then
      let s := p.2
      if !s.regOngoing then
        -- 2. disable the ADC peripheral
        let q := ADC_Disable s
        if q.1 = .ok then
          -- ADC_STATE_CLR_SET(State, REG_BUSY | INJ_BUSY, READY)
          let s := { q.2 with stRegBusy := false, stInjBusy := false, stReady := true }
          (q.1, { s with lock := false })
        else
          (q.1, { q.2 with lock := false })
      else
        -- CLEAR_BIT(State, INJ_BUSY): regular conversion still running
        let s := { s with stInjBusy := false }
        (p.1, { s with lock := false })
    else
      (p.1, { p.2 with lock := false })

/-- `HAL_ADCEx_InjectedStop_IT` (lines 790-839). -/
def HAL_ADCEx_InjectedStop_IT (s : ADC) : HALStatus × ADC :=
  if s.lock then (.busy, s)
  else
    let s := { s with lock := true }
    let p := ADC_ConversionStop s .injected
    if p.1 = .ok then
      -- __HAL_ADC_DISABLE_IT(JEOC | JEOS | JQOVF)
      let s := { p.2 with itJEOC := false, itJEOS := false, itJQOVF := false }
      if !s.regOngoing then
        let q := ADC_Disable s
        if q.1 = .ok then
          let s := { q.2 with stRegBusy := false, stInjBusy := false, stReady := true }
          (q.1, { s with lock := false })
        else
          (q.1, { q.2 with lock := false })
      else
        let s := { s with stInjBusy := false }
        (p.1, { s with lock := false })
    else
      (p.1, { p.2 with lock := false })

/-- `HAL_ADCEx_InjectedPollForConversion` (lines 476-603).  The ISR
flags of the state are fixed snapshots (no concurrent hardware
progress), so the polling loop either sees its completion flag at once,
or runs until the timeout fires; with `Timeout = HAL_MAX_DELAY` and the
flag never set, the loop does not terminate, rendered as `none`. -/
def HAL_ADCEx_InjectedPollForConversion (s : ADC) (timeout : Nat) :
    Option (HALStatus × ADC) :=
  let flagEnd := if s.eocSeq then s.isrJEOS else s.isrJEOC
  if !flagEnd then
    if timeout == HAL_MAX_DELAY then none
    else
      -- SET_BIT(State, TIMEOUT); __HAL_UNLOCK; return HAL_TIMEOUT
      some (.timeout, { s with stTimeout := true, lock := false })
  else
    -- trigger-source reads on this instance
    let injTrigSW := jexten s.jsqr == 0
    let regTrigSW := s.cfgr.extenNone
    -- relevant CFGR: own register unless a multimode slave with
    -- multimode injected conversions enabled
    let tmpCfgr := if notMMSlaveInjected s then s.cfgr else s.masterCfgr
    -- SET_BIT(State, INJ_EOC)
    let s := { s with stInjEOC := true }
    -- any further conversion upcoming on group injected?
    let s :=
      if injTrigSW || (!tmpCfgr.jauto && (regTrigSW && !tmpCfgr.cont)) then
        if s.isrJEOS then
          if !tmpCfgr.jqm then
            let s := { s with stInjBusy := false }
            if !s.stRegBusy then { s with stReady := true } else s
          else s
        else s
      else s
    -- clear polled flag
    let s :=
      if s.eocSeq then
        if !tmpCfgr.autdly then { s with isrJEOC := false, isrJEOS := false }
        else s
      else { s with isrJEOC := false }
    some (.ok, s)

/-- `ADC_CHANNEL_0`.  Modelled from the spec: channels are identified by
their decimal number (`__LL_ADC_CHANNEL_TO_DECIMAL_NB` is the identity
on this encoding). -/
def chADC0 : Nat := 0

/-- `ADC_CHANNEL_1`. -/
def chADC1 : Nat := 1

/-- `ADC_CHANNEL_TEMPSENSOR` (an internal channel; decimal code). -/
def chTempSensor : Nat := 16

/-- `ADC_CHANNEL_VBAT` (an internal channel; decimal code). -/
def chVbat : Nat := 17

/-- `ADC_CHANNEL_VREFINT` (an internal channel; decimal code). -/
def chVrefint : Nat := 18

/-- `ADC_CHANNEL_VDDCORE` (an internal channel; decimal code). -/
def chVddcore : Nat := 19

/-- `__LL_ADC_IS_CHANNEL_INTERNAL`. -/
def isInternalChannel (ch : Nat) : Bool :=
  ch == chTempSensor || ch == chVbat || ch == chVrefint || ch == chVddcore

/-- `ADC_SAMPLETIME_3CYCLES_5` (the sampling-time code that the source
special-cases; other codes are opaque). -/
def SMP_3CYCLES_5 : Nat := 35

/-- `LL_ADC_SAMPLINGTIME_2CYCLES_5`. -/
def SMP_2CYCLES_5 : Nat := 25

/-- `LL_ADC_SAMPLINGTIME_COMMON_DEFAULT`. -/
def SMPCOMMON_DEFAULT : Nat := 0

/-- `LL_ADC_SAMPLINGTIME_COMMON_3C5_REPL_2C5`. -/
def SMPCOMMON_3C5_REPL_2C5 : Nat := 1

/-- The fields of `ADC_InjectionConfTypeDef` read by
`HAL_ADCEx_InjectedConfigChannel`. -/
structure InjConf where
  /-- `InjectedChannel` (decimal channel code). -/
  channel : Nat
  /-- `InjectedRank` (1 to 4). -/
  rank : Nat
  /-- `InjectedNbrOfConversion`. -/
  nbrOfConversion : Nat
  /-- `ExternalTrigInjecConv == ADC_INJECTED_SOFTWARE_START`. -/
  trigSWStart : Bool
  /-- `ExternalTrigInjecConv & ADC_JSQR_JEXTSEL` (bits 6:2, positioned). -/
  trigSel : Nat
  /-- `ExternalTrigInjecConvEdge` (`JEXTEN` bits 8:7, positioned; `0`
  is `ADC_EXTERNALTRIGINJECCONV_EDGE_NONE`). -/
  trigEdge : Nat
  /-- `AutoInjectedConv == ENABLE`. -/
  autoInjectedConv : Bool
  /-- `QueueInjectedContext == ENABLE`. -/
  queueInjectedContext : Bool
  /-- `InjectedDiscontinuousConvMode == ENABLE`. -/
  discontinuousConvMode : Bool
  /-- `InjectedSingleDiff == ADC_DIFFERENTIAL_ENDED`. -/
  differential : Bool
  /-- `InjectedSamplingTime` code. -/
  samplingTime : Nat
  /-- `InjectedOffsetNumber` (`0` is `ADC_OFFSET_NONE`, else 1 to 4). -/
  offsetNumber : Nat
  /-- `InjectedOffset` (raw offset value). -/
  offset : Nat
  /-- `InjectedOffsetSign` code. -/
  offsetSign : Nat
  /-- `InjectedOffsetSaturation == ENABLE`. -/
  offsetSaturation : Bool
  /-- `InjecOversamplingMode == ENABLE`. -/
  oversamplingMode : Bool
  /-- `InjecOversampling.Ratio` field value. -/
  ovsRatioField : Nat
  /-- `InjecOversampling.RightBitShift` field value. -/
  ovsShiftField : Nat
deriving DecidableEq, Repr

/-- Sequencer section of `HAL_ADCEx_InjectedConfigChannel`
(lines 1796-1899): definition and commit of the injected context
register `JSQR`, either in one call (scan disabled or a 1-rank context)
or staged across successive calls through
`hadc->InjectionConfig.{ChannelCount, ContextQueue}`. -/
def injCfgSequencer (s : ADC) (c : InjConf) : ADC :=
  if !s.scanConvModeEnabled || c.nbrOfConversion == 1 then
    if c.rank == 1 then
      let ctx :=
        if !c.trigSWStart then jsqrRK c.channel 1 ||| c.trigSel ||| c.trigEdge
        else jsqrRK c.channel 1
      { s with jsqr := modifyReg s.jsqr ADC_JSQR_FIELDS ctx, injContextQueue := ctx }
    else s
  else
    -- 1. first call of the context under setting: initialize count and header
    let cnt := if s.injChannelCount == 0 then c.nbrOfConversion else s.injChannelCount
    let ctxQ := if s.injChannelCount == 0 then 0 else s.injContextQueue
    let tmp :=
      if s.injChannelCount == 0 then
        if !c.trigSWStart then (c.nbrOfConversion - 1) ||| c.trigSel ||| c.trigEdge
        else c.nbrOfConversion - 1
      else 0
    -- 2. merge this call's rank into the context being built
    let tmp := clearRank tmp c.rank ||| jsqrRK c.channel c.rank
    let cnt := cnt - 1
    -- 3. aggregate into the staged context
    let ctxQ := ctxQ ||| tmp
    let s := { s with injChannelCount := cnt, injContextQueue := ctxQ }
    -- 4. last channel set: write the context into JSQR
    if cnt == 0 then { s with jsqr := modifyReg s.jsqr ADC_JSQR_FIELDS ctxQ }
    else s

/-- Section of `HAL_ADCEx_InjectedConfigChannel` gated on "no injected
conversion ongoing" (lines 1908-1934): channel-0 GPIO path and the
`JQM`/`JDISCEN` update. -/
def injCfgQueueMode (s : ADC) (c : InjConf) : ADC :=
  if !s.injOngoing then
    let s :=
      if c.channel == chADC0 || (c.channel == chADC1 && c.differential) then
        { s with extWrites := .chan0PathEnable :: s.extWrites }
      else s
    if !c.autoInjectedConv then
      { s with cfgr := { s.cfgr with jqm := c.queueInjectedContext,
                                     jdiscen := c.discontinuousConvMode } }
    else
      { s with cfgr := { s.cfgr with jqm := c.queueInjectedContext, jdiscen := false } }
  else s

/-- Section of `HAL_ADCEx_InjectedConfigChannel` gated on "no conversion
ongoing on either group" (lines 1943-2073): `JAUTO` update (with the
config-error report when auto-injection is requested but injected
external triggers are enabled), injected oversampling, channel sampling
time and channel offset. -/
def injCfgIdleParams (s : ADC) (c : InjConf) : HALStatus × ADC :=
  if !s.regOngoing && !s.injOngoing then
    let p : HALStatus × ADC :=
      if c.trigSWStart || c.trigEdge == 0 then
        (.ok, { s with cfgr := { s.cfgr with jauto := c.autoInjectedConv } })
      else
        if c.autoInjectedConv then (.error, { s with stErrConfig := true })
        else (.ok, { s with cfgr := { s.cfgr with jauto := false } })
    let s := p.2
    let s :=
      if c.oversamplingMode then
        { s with cfgr2jovse := true, ovsR := c.ovsRatioField, ovsS := c.ovsShiftField }
      else { s with cfgr2jovse := false }
    let s :=
      if c.samplingTime == SMP_3CYCLES_5 then
        { s with extWrites := .samplingCommonCfg SMPCOMMON_3C5_REPL_2C5
                                :: .samplingTime c.channel SMP_2CYCLES_5 :: s.extWrites }
      else
        { s with extWrites := .samplingCommonCfg SMPCOMMON_DEFAULT
                                :: .samplingTime c.channel c.samplingTime :: s.extWrites }
    let s :=
      if c.offsetNumber != 0 then
        let s :=
          if c.offsetNumber == 1 then { s with ofrCh1 := c.channel, ofrEn1 := true }
          else if c.offsetNumber == 2 then { s with ofrCh2 := c.channel, ofrEn2 := true }
          else if c.offsetNumber == 3 then { s with ofrCh3 := c.channel, ofrEn3 := true }
          else { s with ofrCh4 := c.channel, ofrEn4 := true }
        { s with extWrites := .offsetSet c.offsetNumber c.channel c.offset
                                c.offsetSign c.offsetSaturation :: s.extWrites }
      else
        -- scan each offset register; disable those targeting this channel
        let s := if s.ofrCh1 == c.channel then
                   { s with ofrEn1 := false, extWrites := .offsetDisable 1 :: s.extWrites }
                 else s
        let s := if s.ofrCh2 == c.channel then
                   { s with ofrEn2 := false, extWrites := .offsetDisable 2 :: s.extWrites }
                 else s
        let s := if s.ofrCh3 == c.channel then
                   { s with ofrEn3 := false, extWrites := .offsetDisable 3 :: s.extWrites }
                 else s
        if s.ofrCh4 == c.channel then
          { s with ofrEn4 := false, extWrites := .offsetDisable 4 :: s.extWrites }
        else s
    (p.1, s)
  else (.ok, s)

/-- Section of `HAL_ADCEx_InjectedConfigChannel` gated on "ADC disabled"
(lines 2078-2096): single-ended / differential input mode, and the
sampling time of the paired channel in differential mode. -/
def injCfgSingleDiff (s : ADC) (c : InjConf) : ADC :=
  if !s.adcEnabled then
    let s := { s with extWrites := .singleDiffSel c.channel c.differential :: s.extWrites }
    if c.differential then
      { s with extWrites := .samplingTime ((c.channel + 1) % 32) c.samplingTime
                              :: s.extWrites }
    else s
  else s

/-- Internal measurement channel section of
`HAL_ADCEx_InjectedConfigChannel` (lines 2104-2160): one-time enabling
of the temperature sensor / Vbat / Vrefint / VDDcore paths. -/
def injCfgInternalCh (s : ADC) (c : InjConf) : ADC :=
  if isInternalChannel c.channel then
    if c.channel == chTempSensor && !s.pathTempSensor then
      if s.instTempSensor then { s with pathTempSensor := true } else s
    else if c.channel == chVbat && !s.pathVbat then
      if s.instVbat then { s with pathVbat := true } else s
    else if c.channel == chVrefint && !s.pathVrefint then
      if s.instVrefint then { s with pathVrefint := true } else s
    else if c.channel == chVddcore then
      if s.instVddcore then { s with extWrites := .vddcorePath :: s.extWrites } else s
    else s
  else s

/-- `HAL_ADCEx_InjectedConfigChannel` (lines 1716-2167). -/
def HAL_ADCEx_InjectedConfigChannel (s : ADC) (c : InjConf) : HALStatus × ADC :=
  if s.lock then (.busy, s)
  else
    let s := { s with lock := true }
    let s := injCfgSequencer s c
    let s := injCfgQueueMode s c
    let p := injCfgIdleParams s c
    let s := injCfgSingleDiff p.2 c
    let s := injCfgInternalCh s c
    (p.1, { s with lock := false })

/-- The fields of `ADC_MultiModeTypeDef` read by
`HAL_ADCEx_MultiModeConfigChannel`. -/
structure MultiModeConf where
  /-- `Mode == ADC_MODE_INDEPENDENT`. -/
  modeIndependent : Bool
  /-- `Mode` (`CCR.DUAL` field value) when not independent. -/
  modeVal : Nat
  /-- `DMAAccessMode` (`CCR.MDMA` field value). -/
  dmaAccessMode : Nat
  /-- `TwoSamplingDelay` (`CCR.DELAY` field value). -/
  twoSamplingDelay : Nat
deriving DecidableEq, Repr

/-- `HAL_ADCEx_MultiModeConfigChannel` (lines 2186-2291).
`__LL_ADC_IS_ENABLED_ALL_COMMON_INSTANCE == 0` is modelled from the
spec (section 3, multimode pairing): no instance of the common group is
enabled. -/
def HAL_ADCEx_MultiModeConfigChannel (s : ADC) (m : MultiModeConf) : HALStatus × ADC :=
  if s.lock then (.busy, s)
  else
    let s := { s with lock := true }
    if !s.slaveExists then
      (.error, { s with stErrConfig := true, lock := false })
    else if !s.regOngoing && !s.slaveRegOngoing then
      if !m.modeIndependent then
        -- MODIFY_REG(CCR, MDMA | DMACFG, DMAAccessMode | MULTI_DMACONTREQ(...))
        let s := { s with ccrMdma := m.dmaAccessMode, ccrDmacfg := s.dmaContinuousRequests }
        -- DUAL and DELAY writable only when all common instances are disabled
        let s :=
          if !(s.adcEnabled || s.slaveEnabled) then
            { s with ccrDual := m.modeVal, ccrDelay := m.twoSamplingDelay }
          else s
        (.ok, { s with lock := false })
      else
        let s := { s with ccrMdma := 0, ccrDmacfg := false }
        let s :=
          if !(s.adcEnabled || s.slaveEnabled) then { s with ccrDual := 0, ccrDelay := 0 }
          else s
        (.ok, { s with lock := false })
    else
      (.error, { s with stErrConfig := true, lock := false })

/-- `HAL_ADCEx_MultiModeStop_DMA` (lines 1038-1154).  The bounded wait
for hardware-confirmed idle of master and slave (lines 1080-1106) is
over conversion-ongoing flags the model keeps static, so it exits at
once when both are idle and otherwise runs to its
`ADC_STOP_CONVERSION_TIMEOUT` bound and takes the error return. -/
def HAL_ADCEx_MultiModeStop_DMA (s : ADC) : HALStatus × ADC :=
  if s.lock then (.busy, s)
  else
    let s := { s with lock := true }
    -- 1. stop potential multimode conversion, on regular and injected groups
    let p := ADC_ConversionStop s .regularInjected
    if p.1 = .ok then
      let s := p.2
      if !s.slaveExists then
        (.error, { s with stErrConfig := true, lock := false })
      else if s.regOngoing || s.slaveRegOngoing then
        -- wait loop exhausted its bound: SET_BIT(State, ERROR_INTERNAL)
        (.error, { s with stErrInternal := true, lock := false })
      else
        -- disable the shared DMA channel
        let q := HAL_DMA_Abort s
        let s := if q.1 = .error then { q.2 with stErrDMA := true } else q.2
        -- __HAL_ADC_DISABLE_IT(OVR)
        let s := { s with itOVR := false }
        if q.1 = .ok then
          -- 2. disable slave then master; a failure here leaves
          -- tmp_hal_status at HAL_OK (only HAL_OK is ever re-assigned)
          let r1 := ADC_DisableSlave s
          let r2 := ADC_Disable r1.2
          let s := { r2.2 with stRegBusy := false, stInjBusy := false, stReady := true }
          (.ok, { s with lock := false })
        else
          -- error path: attempt to disable master and slave without status
          let r2 := ADC_Disable s
          let r1 := ADC_DisableSlave r2.2
          let s := { r1.2 with stRegBusy := false, stInjBusy := false, stReady := true }
          (.error, { s with lock := false })
    else
      (p.1, { p.2 with lock := false })

/-- `HAL_ADCEx_RegularStop` (lines 1325-1372). -/
def HAL_ADCEx_RegularStop (s : ADC) : HALStatus × ADC :=
  if s.lock then (.busy, s)
  else
    let s := { s with lock := true }
    let p := ADC_ConversionStop s .regular
    if p.1 = .ok then
      let s := { p.2 with stRegBusy := false }
      if !s.injOngoing then
        let q := ADC_Disable s
        if q.1 = .ok then
          let s := { q.2 with stInjBusy := false, stReady := true }
          (q.1, { s with lock := false })
        else
          (q.1, { q.2 with lock := false })
      else
        let s := { s with stInjBusy := true }
        (p.1, { s with lock := false })
    else
      (p.1, { p.2 with lock := false })

/-! ### Collaborator evaluation lemmas (fault-free cases) -/

theorem ADC_Enable_nofault (s : ADC) (h : s.faultEnable = false) :
    ADC_Enable s = (.ok, { s with adcEnabled := true }) := by
  cases s
  simp_all [ADC_Enable]

theorem ADC_Disable_idle_nofault (s : ADC) (h1 : s.regOngoing = false)
    (h2 : s.injOngoing = false) (h3 : s.faultDisable = false) :
    ADC_Disable s = (.ok, { s with adcEnabled := false }) := by
  cases s
  simp_all [ADC_Disable]

theorem ADC_ConversionStop_inj_nofault (s : ADC) (h : s.faultStop = false) :
    ADC_ConversionStop s .injected = (.ok, { s with injOngoing := false }) := by
  cases s
  simp_all [ADC_ConversionStop]

theorem ADC_ConversionStop_reg_nofault (s : ADC) (h : s.faultStop = false) :
    ADC_ConversionStop s .regular = (.ok, { s with regOngoing := false }) := by
  cases s
  simp_all [ADC_ConversionStop]

theorem ADC_ConversionStop_both_nofault (s : ADC) (h : s.faultStop = false) :
    ADC_ConversionStop s .regularInjected
      = (.ok, { s with regOngoing := false, injOngoing := false }) := by
  cases s
  simp_all [ADC_ConversionStop]

/-! ### Injected start/stop call sequences (claim C1's setting) -/

/-- One injected-group lifecycle call on a single peripheral instance:
the four operations of the claim. -/
inductive InjOp where
  | start
  | startIT
  | stop
  | stopIT
deriving DecidableEq, Repr

/-- Execute one injected-group call on the handle. -/
def injOpRun (s : ADC) : InjOp → HALStatus × ADC
  | .start => HAL_ADCEx_InjectedStart s
  | .startIT => HAL_ADCEx_InjectedStart_IT s
  | .stop => HAL_ADCEx_InjectedStop s
  | .stopIT => HAL_ADCEx_InjectedStop_IT s

/-- Execute one call while tracking the specification-side flag "a start
has returned successfully and no later stop has completed successfully". -/
def injStep (p : ADC × Bool) (op : InjOp) : ADC × Bool :=
  let r := injOpRun p.1 op
  match op, r.1 with
  | .start, .ok => (r.2, true)
  | .startIT, .ok => (r.2, true)
  | .stop, .ok => (r.2, false)
  | .stopIT, .ok => (r.2, false)
  | _, _ => (r.2, p.2)

/-- Run a sequence of injected-group calls from a state, alongside the
specification-side started/stopped flag (initially `false`). -/
def injRun (s : ADC) (ops : List InjOp) : ADC × Bool :=
  ops.foldl injStep (s, false)

/-- No faults injected: every modelled hardware confirmation of the
enable/disable/stop collaborators arrives in time. -/
def NoFault (s : ADC) : Prop :=
  s.faultEnable = false ∧ s.faultDisable = false ∧ s.faultStop = false

/-- Invariant tying the handle's injected-busy bit to the
specification-side flag along a fault-free call sequence. -/
def InjInv (p : ADC × Bool) : Prop :=
  p.1.lock = false ∧ NoFault p.1 ∧ p.1.stInjBusy = p.2
    ∧ (p.1.injOngoing = true → p.2 = true)

/-! ### Conditional-projection push lemmas

`simp` helpers that move a field projection inside an `if` so that the
branches of the translated control flow can be compared field by field
(collapsing with `ite_self` where both branches agree). -/

theorem iteFst (c : Prop) [Decidable c] (a b : HALStatus × ADC) :
    (if c then a else b).1 = if c then a.1 else b.1 := by
  split <;> rfl

theorem iteSnd (c : Prop) [Decidable c] (a b : HALStatus × ADC) :
    (if c then a else b).2 = if c then a.2 else b.2 := by
  split <;> rfl

theorem ite_lock (c : Prop) [Decidable c] (a b : ADC) :
    (if c then a else b).lock = if c then a.lock else b.lock := by
  split <;> rfl

theorem ite_stReady (c : Prop) [Decidable c] (a b : ADC) :
    (if c then a else b).stReady = if c then a.stReady else b.stReady := by
  split <;> rfl

theorem ite_stBusyInternal (c : Prop) [Decidable c] (a b : ADC) :
    (if c then a else b).stBusyInternal = if c then a.stBusyInternal else b.stBusyInternal := by
  split <;> rfl

theorem ite_stTimeout (c : Prop) [Decidable c] (a b : ADC) :
    (if c then a else b).stTimeout = if c then a.stTimeout else b.stTimeout := by
  split <;> rfl

theorem ite_stErrInternal (c : Prop) [Decidable c] (a b : ADC) :
    (if c then a else b).stErrInternal = if c then a.stErrInternal else b.stErrInternal := by
  split <;> rfl

theorem ite_stErrConfig (c : Prop) [Decidable c] (a b : ADC) :
    (if c then a else b).stErrConfig = if c then a.stErrConfig else b.stErrConfig := by
  split <;> rfl

theorem ite_stErrDMA (c : Prop) [Decidable c] (a b : ADC) :
    (if c then a else b).stErrDMA = if c then a.stErrDMA else b.stErrDMA := by
  split <;> rfl

theorem ite_stRegBusy (c : Prop) [Decidable c] (a b : ADC) :
    (if c then a else b).stRegBusy = if c then a.stRegBusy else b.stRegBusy := by
  split <;> rfl

theorem ite_stRegEOC (c : Prop) [Decidable c] (a b : ADC) :
    (if c then a else b).stRegEOC = if c then a.stRegEOC else b.stRegEOC := by
  split <;> rfl

theorem ite_stRegOVR (c : Prop) [Decidable c] (a b : ADC) :
    (if c then a else b).stRegOVR = if c then a.stRegOVR else b.stRegOVR := by
  split <;> rfl

theorem ite_stRegEOSMP (c : Prop) [Decidable c] (a b : ADC) :
    (if c then a else b).stRegEOSMP = if c then a.stRegEOSMP else b.stRegEOSMP := by
  split <;> rfl

theorem ite_stInjBusy (c : Prop) [Decidable c] (a b : ADC) :
    (if c then a else b).stInjBusy = if c then a.stInjBusy else b.stInjBusy := by
  split <;> rfl

theorem ite_stInjEOC (c : Prop) [Decidable c] (a b : ADC) :
    (if c then a else b).stInjEOC = if c then a.stInjEOC else b.stInjEOC := by
  split <;> rfl

theorem ite_stInjJQOVF (c : Prop) [Decidable c] (a b : ADC) :
    (if c then a else b).stInjJQOVF = if c then a.stInjJQOVF else b.stInjJQOVF := by
  split <;> rfl

theorem ite_stMMSlave (c : Prop) [Decidable c] (a b : ADC) :
    (if c then a else b).stMMSlave = if c then a.stMMSlave else b.stMMSlave := by
  split <;> rfl

theorem ite_errInternal (c : Prop) [Decidable c] (a b : ADC) :
    (if c then a else b).errInternal = if c then a.errInternal else b.errInternal := by
  split <;> rfl

theorem ite_errOVR (c : Prop) [Decidable c] (a b : ADC) :
    (if c then a else b).errOVR = if c then a.errOVR else b.errOVR := by
  split <;> rfl

theorem ite_errDMA (c : Prop) [Decidable c] (a b : ADC) :
    (if c then a else b).errDMA = if c then a.errDMA else b.errDMA := by
  split <;> rfl

theorem ite_errJQOVF (c : Prop) [Decidable c] (a b : ADC) :
    (if c then a else b).errJQOVF = if c then a.errJQOVF else b.errJQOVF := by
  split <;> rfl

theorem ite_scanConvModeEnabled (c : Prop) [Decidable c] (a b : ADC) :
    (if c then a else b).scanConvModeEnabled = if c then a.scanConvModeEnabled else b.scanConvModeEnabled := by
  split <;> rfl

theorem ite_eocSeq (c : Prop) [Decidable c] (a b : ADC) :
    (if c then a else b).eocSeq = if c then a.eocSeq else b.eocSeq := by
  split <;> rfl

theorem ite_dmaContinuousRequests (c : Prop) [Decidable c] (a b : ADC) :
    (if c then a else b).dmaContinuousRequests = if c then a.dmaContinuousRequests else b.dmaContinuousRequests := by
  split <;> rfl

theorem ite_adcEnabled (c : Prop) [Decidable c] (a b : ADC) :
    (if c then a else b).adcEnabled = if c then a.adcEnabled else b.adcEnabled := by
  split <;> rfl

theorem ite_regOngoing (c : Prop) [Decidable c] (a b : ADC) :
    (if c then a else b).regOngoing = if c then a.regOngoing else b.regOngoing := by
  split <;> rfl

theorem ite_injOngoing (c : Prop) [Decidable c] (a b : ADC) :
    (if c then a else b).injOngoing = if c then a.injOngoing else b.injOngoing := by
  split <;> rfl

theorem ite_jsqr (c : Prop) [Decidable c] (a b : ADC) :
    (if c then a else b).jsqr = if c then a.jsqr else b.jsqr := by
  split <;> rfl

theorem ite_cfgr (c : Prop) [Decidable c] (a b : ADC) :
    (if c then a else b).cfgr = if c then a.cfgr else b.cfgr := by
  split <;> rfl

theorem ite_cfgr2jovse (c : Prop) [Decidable c] (a b : ADC) :
    (if c then a else b).cfgr2jovse = if c then a.cfgr2jovse else b.cfgr2jovse := by
  split <;> rfl

theorem ite_ovsR (c : Prop) [Decidable c] (a b : ADC) :
    (if c then a else b).ovsR = if c then a.ovsR else b.ovsR := by
  split <;> rfl

theorem ite_ovsS (c : Prop) [Decidable c] (a b : ADC) :
    (if c then a else b).ovsS = if c then a.ovsS else b.ovsS := by
  split <;> rfl

theorem ite_isrJEOC (c : Prop) [Decidable c] (a b : ADC) :
    (if c then a else b).isrJEOC = if c then a.isrJEOC else b.isrJEOC := by
  split <;> rfl

theorem ite_isrJEOS (c : Prop) [Decidable c] (a b : ADC) :
    (if c then a else b).isrJEOS = if c then a.isrJEOS else b.isrJEOS := by
  split <;> rfl

theorem ite_itJEOC (c : Prop) [Decidable c] (a b : ADC) :
    (if c then a else b).itJEOC = if c then a.itJEOC else b.itJEOC := by
  split <;> rfl

theorem ite_itJEOS (c : Prop) [Decidable c] (a b : ADC) :
    (if c then a else b).itJEOS = if c then a.itJEOS else b.itJEOS := by
  split <;> rfl

theorem ite_itJQOVF (c : Prop) [Decidable c] (a b : ADC) :
    (if c then a else b).itJQOVF = if c then a.itJQOVF else b.itJQOVF := by
  split <;> rfl

theorem ite_itOVR (c : Prop) [Decidable c] (a b : ADC) :
    (if c then a else b).itOVR = if c then a.itOVR else b.itOVR := by
  split <;> rfl

theorem ite_calFactS (c : Prop) [Decidable c] (a b : ADC) :
    (if c then a else b).calFactS = if c then a.calFactS else b.calFactS := by
  split <;> rfl

theorem ite_calFactD (c : Prop) [Decidable c] (a b : ADC) :
    (if c then a else b).calFactD = if c then a.calFactD else b.calFactD := by
  split <;> rfl

theorem ite_calibCycles (c : Prop) [Decidable c] (a b : ADC) :
    (if c then a else b).calibCycles = if c then a.calibCycles else b.calibCycles := by
  split <;> rfl

theorem ite_injChannelCount (c : Prop) [Decidable c] (a b : ADC) :
    (if c then a else b).injChannelCount = if c then a.injChannelCount else b.injChannelCount := by
  split <;> rfl

theorem ite_injContextQueue (c : Prop) [Decidable c] (a b : ADC) :
    (if c then a else b).injContextQueue = if c then a.injContextQueue else b.injContextQueue := by
  split <;> rfl

theorem ite_pathTempSensor (c : Prop) [Decidable c] (a b : ADC) :
    (if c then a else b).pathTempSensor = if c then a.pathTempSensor else b.pathTempSensor := by
  split <;> rfl

theorem ite_pathVbat (c : Prop) [Decidable c] (a b : ADC) :
    (if c then a else b).pathVbat = if c then a.pathVbat else b.pathVbat := by
  split <;> rfl

theorem ite_pathVrefint (c : Prop) [Decidable c] (a b : ADC) :
    (if c then a else b).pathVrefint = if c then a.pathVrefint else b.pathVrefint := by
  split <;> rfl

theorem ite_extWrites (c : Prop) [Decidable c] (a b : ADC) :
    (if c then a else b).extWrites = if c then a.extWrites else b.extWrites := by
  split <;> rfl

theorem ite_isMaster (c : Prop) [Decidable c] (a b : ADC) :
    (if c then a else b).isMaster = if c then a.isMaster else b.isMaster := by
  split <;> rfl

theorem ite_mmConfig (c : Prop) [Decidable c] (a b : ADC) :
    (if c then a else b).mmConfig = if c then a.mmConfig else b.mmConfig := by
  split <;> rfl

theorem ite_masterCfgr (c : Prop) [Decidable c] (a b : ADC) :
    (if c then a else b).masterCfgr = if c then a.masterCfgr else b.masterCfgr := by
  split <;> rfl

theorem ite_slaveExists (c : Prop) [Decidable c] (a b : ADC) :
    (if c then a else b).slaveExists = if c then a.slaveExists else b.slaveExists := by
  split <;> rfl

theorem ite_slaveEnabled (c : Prop) [Decidable c] (a b : ADC) :
    (if c then a else b).slaveEnabled = if c then a.slaveEnabled else b.slaveEnabled := by
  split <;> rfl

theorem ite_slaveRegOngoing (c : Prop) [Decidable c] (a b : ADC) :
    (if c then a else b).slaveRegOngoing = if c then a.slaveRegOngoing else b.slaveRegOngoing := by
  split <;> rfl

theorem ite_slaveInjOngoing (c : Prop) [Decidable c] (a b : ADC) :
    (if c then a else b).slaveInjOngoing = if c then a.slaveInjOngoing else b.slaveInjOngoing := by
  split <;> rfl

theorem ite_ccrMdma (c : Prop) [Decidable c] (a b : ADC) :
    (if c then a else b).ccrMdma = if c then a.ccrMdma else b.ccrMdma := by
  split <;> rfl

theorem ite_ccrDmacfg (c : Prop) [Decidable c] (a b : ADC) :
    (if c then a else b).ccrDmacfg = if c then a.ccrDmacfg else b.ccrDmacfg := by
  split <;> rfl

theorem ite_ccrDual (c : Prop) [Decidable c] (a b : ADC) :
    (if c then a else b).ccrDual = if c then a.ccrDual else b.ccrDual := by
  split <;> rfl

theorem ite_ccrDelay (c : Prop) [Decidable c] (a b : ADC) :
    (if c then a else b).ccrDelay = if c then a.ccrDelay else b.ccrDelay := by
  split <;> rfl

theorem ite_dmaActive (c : Prop) [Decidable c] (a b : ADC) :
    (if c then a else b).dmaActive = if c then a.dmaActive else b.dmaActive := by
  split <;> rfl

theorem ite_faultEnable (c : Prop) [Decidable c] (a b : ADC) :
    (if c then a else b).faultEnable = if c then a.faultEnable else b.faultEnable := by
  split <;> rfl

theorem ite_faultDisable (c : Prop) [Decidable c] (a b : ADC) :
    (if c then a else b).faultDisable = if c then a.faultDisable else b.faultDisable := by
  split <;> rfl

theorem ite_faultSlaveDisable (c : Prop) [Decidable c] (a b : ADC) :
    (if c then a else b).faultSlaveDisable = if c then a.faultSlaveDisable else b.faultSlaveDisable := by
  split <;> rfl

theorem ite_faultStop (c : Prop) [Decidable c] (a b : ADC) :
    (if c then a else b).faultStop = if c then a.faultStop else b.faultStop := by
  split <;> rfl

theorem ite_faultDMAAbort (c : Prop) [Decidable c] (a b : ADC) :
    (if c then a else b).faultDMAAbort = if c then a.faultDMAAbort else b.faultDMAAbort := by
  split <;> rfl

theorem iteC_jqdis (c : Prop) [Decidable c] (a b : CFGRbits) :
    (if c then a else b).jqdis = if c then a.jqdis else b.jqdis := by
  split <;> rfl

theorem iteC_jqm (c : Prop) [Decidable c] (a b : CFGRbits) :
    (if c then a else b).jqm = if c then a.jqm else b.jqm := by
  split <;> rfl

theorem iteC_jauto (c : Prop) [Decidable c] (a b : CFGRbits) :
    (if c then a else b).jauto = if c then a.jauto else b.jauto := by
  split <;> rfl

theorem iteC_cont (c : Prop) [Decidable c] (a b : CFGRbits) :
    (if c then a else b).cont = if c then a.cont else b.cont := by
  split <;> rfl

theorem iteC_autdly (c : Prop) [Decidable c] (a b : CFGRbits) :
    (if c then a else b).autdly = if c then a.autdly else b.autdly := by
  split <;> rfl

theorem iteC_jdiscen (c : Prop) [Decidable c] (a b : CFGRbits) :
    (if c then a else b).jdiscen = if c then a.jdiscen else b.jdiscen := by
  split <;> rfl

theorem iteC_extenNone (c : Prop) [Decidable c] (a b : CFGRbits) :
    (if c then a else b).extenNone = if c then a.extenNone else b.extenNone := by
  split <;> rfl

attribute [simp] iteFst iteSnd ite_lock ite_stReady ite_stBusyInternal ite_stTimeout ite_stErrInternal ite_stErrConfig ite_stErrDMA ite_stRegBusy ite_stRegEOC ite_stRegOVR ite_stRegEOSMP ite_stInjBusy ite_stInjEOC ite_stInjJQOVF ite_stMMSlave ite_errInternal ite_errOVR ite_errDMA ite_errJQOVF ite_scanConvModeEnabled ite_eocSeq ite_dmaContinuousRequests ite_adcEnabled ite_regOngoing ite_injOngoing ite_jsqr ite_cfgr ite_cfgr2jovse ite_ovsR ite_ovsS ite_isrJEOC ite_isrJEOS ite_itJEOC ite_itJEOS ite_itJQOVF ite_itOVR ite_calFactS ite_calFactD ite_calibCycles ite_injChannelCount ite_injContextQueue ite_pathTempSensor ite_pathVbat ite_pathVrefint ite_extWrites ite_isMaster ite_mmConfig ite_masterCfgr ite_slaveExists ite_slaveEnabled ite_slaveRegOngoing ite_slaveInjOngoing ite_ccrMdma ite_ccrDmacfg ite_ccrDual ite_ccrDelay ite_dmaActive ite_faultEnable ite_faultDisable ite_faultSlaveDisable ite_faultStop ite_faultDMAAbort iteC_jqdis iteC_jqm iteC_jauto iteC_cont iteC_autdly iteC_jdiscen iteC_extenNone

/-! ### Behaviour shape lemmas for the injected start/stop operations -/

theorem InjectedStart_busy (s : ADC) (h : s.injOngoing = true) :
    HAL_ADCEx_InjectedStart s = (.busy, s) := by
  unfold HAL_ADCEx_InjectedStart
  rw [if_pos h]

theorem InjectedStart_IT_busy (s : ADC) (h : s.injOngoing = true) :
    HAL_ADCEx_InjectedStart_IT s = (.busy, s) := by
  unfold HAL_ADCEx_InjectedStart_IT
  rw [if_pos h]

theorem InjectedStart_cfgErr (s : ADC) (h1 : s.injOngoing = false)
    (h2 : (jexten s.jsqr == 0 && !s.cfgr.jqdis) = true) :
    HAL_ADCEx_InjectedStart s = (.error, { s with stErrConfig := true }) := by
  unfold HAL_ADCEx_InjectedStart
  rw [if_neg (by simp [h1]), if_pos h2]

theorem InjectedStart_IT_cfgErr (s : ADC) (h1 : s.injOngoing = false)
    (h2 : (jexten s.jsqr == 0 && !s.cfgr.jqdis) = true) :
    HAL_ADCEx_InjectedStart_IT s = (.error, { s with stErrConfig := true }) := by
  unfold HAL_ADCEx_InjectedStart_IT
  rw [if_neg (by simp [h1]), if_pos h2]

set_option maxHeartbeats 1000000 in
theorem InjectedStart_ok_shape (s : ADC) (h1 : s.injOngoing = false)
    (h2 : (jexten s.jsqr == 0 && !s.cfgr.jqdis) = false) (h3 : s.lock = false)
    (h4 : s.faultEnable = false) :
    (HAL_ADCEx_InjectedStart s).1 = .ok ∧
    (HAL_ADCEx_InjectedStart s).2.lock = false ∧
    (HAL_ADCEx_InjectedStart s).2.stInjBusy = true ∧
    (HAL_ADCEx_InjectedStart s).2.faultEnable = s.faultEnable ∧
    (HAL_ADCEx_InjectedStart s).2.faultDisable = s.faultDisable ∧
    (HAL_ADCEx_InjectedStart s).2.faultStop = s.faultStop := by
  unfold HAL_ADCEx_InjectedStart
  simp only [h1, h2, h3, ADC_Enable_nofault, h4, Bool.false_eq_true, if_false, reduceIte]
  refine ⟨?_, ?_, ?_, ?_, ?_, ?_⟩ <;> simp [ite_self]

set_option maxHeartbeats 1000000 in
theorem InjectedStart_IT_ok_shape (s : ADC) (h1 : s.injOngoing = false)
    (h2 : (jexten s.jsqr == 0 && !s.cfgr.jqdis) = false) (h3 : s.lock = false)
    (h4 : s.faultEnable = false) :
    (HAL_ADCEx_InjectedStart_IT s).1 = .ok ∧
    (HAL_ADCEx_InjectedStart_IT s).2.lock = false ∧
    (HAL_ADCEx_InjectedStart_IT s).2.stInjBusy = true ∧
    (HAL_ADCEx_InjectedStart_IT s).2.faultEnable = s.faultEnable ∧
    (HAL_ADCEx_InjectedStart_IT s).2.faultDisable = s.faultDisable ∧
    (HAL_ADCEx_InjectedStart_IT s).2.faultStop = s.faultStop := by
  unfold HAL_ADCEx_InjectedStart_IT
  simp only [h1, h2, h3, ADC_Enable_nofault, h4, Bool.false_eq_true, if_false, reduceIte]
  refine ⟨?_, ?_, ?_, ?_, ?_, ?_⟩ <;> simp [ite_self]

set_option maxHeartbeats 1000000 in
theorem InjectedStop_shape (s : ADC) (h3 : s.lock = false)
    (hfs : s.faultStop = false) (hfd : s.faultDisable = false) :
    (HAL_ADCEx_InjectedStop s).1 = .ok ∧
    (HAL_ADCEx_InjectedStop s).2.lock = false ∧
    (HAL_ADCEx_InjectedStop s).2.stInjBusy = false ∧
    (HAL_ADCEx_InjectedStop s).2.injOngoing = false ∧
    (HAL_ADCEx_InjectedStop s).2.faultEnable = s.faultEnable ∧
    (HAL_ADCEx_InjectedStop s).2.faultDisable = s.faultDisable ∧
    (HAL_ADCEx_InjectedStop s).2.faultStop = s.faultStop := by
  unfold HAL_ADCEx_InjectedStop
  simp only [h3, ADC_ConversionStop_inj_nofault, hfs, Bool.false_eq_true, if_false, reduceIte]
  by_cases hreg : s.regOngoing = true
  · simp only [hreg, Bool.not_true, Bool.false_eq_true, if_false, reduceIte]
    refine ⟨?_, ?_, ?_, ?_, ?_, ?_, ?_⟩ <;> simp [ite_self]
  · simp only [Bool.not_eq_true] at hreg
    simp only [hreg, ADC_Disable_idle_nofault, hfd, Bool.not_false, if_true, reduceIte]
    refine ⟨?_, ?_, ?_, ?_, ?_, ?_, ?_⟩ <;> simp [ite_self]

set_option maxHeartbeats 1000000 in
theorem InjectedStop_IT_shape (s : ADC) (h3 : s.lock = false)
    (hfs : s.faultStop = false) (hfd : s.faultDisable = false) :
    (HAL_ADCEx_InjectedStop_IT s).1 = .ok ∧
    (HAL_ADCEx_InjectedStop_IT s).2.lock = false ∧
    (HAL_ADCEx_InjectedStop_IT s).2.stInjBusy = false ∧
    (HAL_ADCEx_InjectedStop_IT s).2.injOngoing = false ∧
    (HAL_ADCEx_InjectedStop_IT s).2.faultEnable = s.faultEnable ∧
    (HAL_ADCEx_InjectedStop_IT s).2.faultDisable = s.faultDisable ∧
    (HAL_ADCEx_InjectedStop_IT s).2.faultStop = s.faultStop := by
  unfold HAL_ADCEx_InjectedStop_IT
  simp only [h3, ADC_ConversionStop_inj_nofault, hfs, Bool.false_eq_true, if_false, reduceIte]
  by_cases hreg : s.regOngoing = true
  · simp only [hreg, Bool.not_true, Bool.false_eq_true, if_false, reduceIte]
    refine ⟨?_, ?_, ?_, ?_, ?_, ?_, ?_⟩ <;> simp [ite_self]
  · simp only [Bool.not_eq_true] at hreg
    simp only [hreg, ADC_Disable_idle_nofault, hfd, Bool.not_false, if_true, reduceIte]
    refine ⟨?_, ?_, ?_, ?_, ?_, ?_, ?_⟩ <;> simp [ite_self]

/-- Each injected start/stop call preserves the busy-bit invariant along
a fault-free sequence. -/
theorem injStep_inv (p : ADC × Bool) (op : InjOp) (h : InjInv p) :
    InjInv (injStep p op) := by
  obtain ⟨hl, ⟨hfe, hfd, hfs⟩, hb, ho⟩ := h
  cases op
  case start =>
    by_cases hinj : p.1.injOngoing = true
    · have he := InjectedStart_busy p.1 hinj
      simp only [injStep, injOpRun, he]
      exact ⟨hl, ⟨hfe, hfd, hfs⟩, hb, ho⟩
    · simp only [Bool.not_eq_true] at hinj
      by_cases hcfg : (jexten p.1.jsqr == 0 && !p.1.cfgr.jqdis) = true
      · have he := InjectedStart_cfgErr p.1 hinj hcfg
        simp only [injStep, injOpRun, he]
        exact ⟨hl, ⟨hfe, hfd, hfs⟩, hb, fun hx => ho hx⟩
      · simp only [Bool.not_eq_true] at hcfg
        obtain ⟨r1, r2, r3, r4, r5, r6⟩ := InjectedStart_ok_shape p.1 hinj hcfg hl hfe
        simp only [injStep, injOpRun, r1]
        exact ⟨r2, ⟨r4.trans hfe, r5.trans hfd, r6.trans hfs⟩, r3, fun _ => rfl⟩
  case startIT =>
    by_cases hinj : p.1.injOngoing = true
    · have he := InjectedStart_IT_busy p.1 hinj
      simp only [injStep, injOpRun, he]
      exact ⟨hl, ⟨hfe, hfd, hfs⟩, hb, ho⟩
    · simp only [Bool.not_eq_true] at hinj
      by_cases hcfg : (jexten p.1.jsqr == 0 && !p.1.cfgr.jqdis) = true
      · have he := InjectedStart_IT_cfgErr p.1 hinj hcfg
        simp only [injStep, injOpRun, he]
        exact ⟨hl, ⟨hfe, hfd, hfs⟩, hb, fun hx => ho hx⟩
      · simp only [Bool.not_eq_true] at hcfg
        obtain ⟨r1, r2, r3, r4, r5, r6⟩ := InjectedStart_IT_ok_shape p.1 hinj hcfg hl hfe
        simp only [injStep, injOpRun, r1]
        exact ⟨r2, ⟨r4.trans hfe, r5.trans hfd, r6.trans hfs⟩, r3, fun _ => rfl⟩
  case stop =>
    obtain ⟨r1, r2, r3, r4, r5, r6, r7⟩ := InjectedStop_shape p.1 hl hfs hfd
    simp only [injStep, injOpRun, r1]
    exact ⟨r2, ⟨r5.trans hfe, r6.trans hfd, r7.trans hfs⟩, r3,
      fun hx => r4.symm.trans hx⟩
  case stopIT =>
    obtain ⟨r1, r2, r3, r4, r5, r6, r7⟩ := InjectedStop_IT_shape p.1 hl hfs hfd
    simp only [injStep, injOpRun, r1]
    exact ⟨r2, ⟨r5.trans hfe, r6.trans hfd, r7.trans hfs⟩, r3,
      fun hx => r4.symm.trans hx⟩

/-- The busy-bit invariant holds along every fault-free sequence. -/
theorem injRun_inv (ops : List InjOp) (p : ADC × Bool) (h : InjInv p) :
    InjInv (ops.foldl injStep p) := by
  induction ops generalizing p with
  | nil => exact h
  | cons op ops ih => exact ih _ (injStep_inv p op h)

/-- C1.  For every sequence of injected-group start and stop calls
(`HAL_ADCEx_InjectedStart`, `HAL_ADCEx_InjectedStart_IT`,
`HAL_ADCEx_InjectedStop`, `HAL_ADCEx_InjectedStop_IT`) on one peripheral
instance with no faults injected, the handle's injected-busy status bit
`HAL_ADC_STATE_INJ_BUSY` is set iff a start call has returned success
and no subsequent stop call has completed successfully (the flag
computed alongside the run by `injStep`). -/
theorem injected_busy_bit_iff_start_open (s : ADC) (ops : List InjOp)
    (hlock : s.lock = false) (hnf : NoFault s)
    (hbusy : s.stInjBusy = false) (hconv : s.injOngoing = false) :
    (injRun s ops).1.stInjBusy = (injRun s ops).2 :=
  (injRun_inv ops (s, false) ⟨hlock, hnf, hbusy, by simp [hconv]⟩).2.2.1

/-- A concrete fault-free instance state: handle unlocked, all status
bits clear, injected queue disabled (`JQDIS` set) so software-triggered
injected starts are accepted, hardware idle. -/
def adc0 : ADC where
  lock := false
  stReady := false
  stBusyInternal := false
  stTimeout := false
  stErrInternal := false
  stErrConfig := false
  stErrDMA := false
  stRegBusy := false
  stRegEOC := false
  stRegOVR := false
  stRegEOSMP := false
  stInjBusy := false
  stInjEOC := false
  stInjJQOVF := false
  stMMSlave := false
  errInternal := false
  errOVR := false
  errDMA := false
  errJQOVF := false
  scanConvModeEnabled := true
  eocSeq := true
  dmaContinuousRequests := false
  adcEnabled := false
  regOngoing := false
  injOngoing := false
  jsqr := 0
  cfgr := { jqdis := true, jqm := false, jauto := false, cont := false,
            autdly := false, jdiscen := false, extenNone := true }
  cfgr2jovse := false
  ovsR := 0
  ovsS := 0
  isrJEOC := false
  isrJEOS := false
  itJEOC := false
  itJEOS := false
  itJQOVF := false
  itOVR := false
  calFactS := 0
  calFactD := 0
  calibCycles := 0
  injChannelCount := 0
  injContextQueue := 0
  ofrCh1 := 30
  ofrCh2 := 30
  ofrCh3 := 30
  ofrCh4 := 30
  ofrEn1 := false
  ofrEn2 := false
  ofrEn3 := false
  ofrEn4 := false
  pathTempSensor := false
  pathVbat := false
  pathVrefint := false
  instTempSensor := true
  instVbat := true
  instVrefint := true
  instVddcore := true
  extWrites := []
  isMaster := true
  mmConfig := .independent
  masterCfgr := { jqdis := true, jqm := false, jauto := false, cont := false,
                  autdly := false, jdiscen := false, extenNone := true }
  slaveExists := true
  slaveEnabled := false
  slaveRegOngoing := false
  slaveInjOngoing := false
  ccrMdma := 0
  ccrDmacfg := false
  ccrDual := 0
  ccrDelay := 0
  dmaActive := false
  faultEnable := false
  faultDisable := false
  faultSlaveDisable := false
  faultStop := false
  faultDMAAbort := false

/-- Witness for C1 at a concrete state and call sequence. -/
theorem injected_busy_bit_iff_start_open_witness :
    (injRun adc0 [.start, .stop, .startIT]).1.stInjBusy
      = (injRun adc0 [.start, .stop, .startIT]).2 :=
  injected_busy_bit_iff_start_open adc0 [.start, .stop, .startIT]
    rfl ⟨rfl, rfl, rfl⟩ rfl rfl

/-- Closed form of the calibration busy-wait: it completes iff the
hardware calibration duration stays below the
`ADC_CALIBRATION_TIMEOUT` iteration bound. -/
theorem calibWait_eq (c i : Nat) :
    calibWait c i = decide (c = 0 ∨ i + c < ADC_CALIBRATION_TIMEOUT) := by
  induction c generalizing i with
  | zero => simp [calibWait]
  | succ c ih =>
    unfold calibWait
    rw [ih]
    by_cases h : ADC_CALIBRATION_TIMEOUT ≤ i + 1
    · rw [if_pos h, eq_comm, decide_eq_false_iff_not]
      simp only [ADC_CALIBRATION_TIMEOUT] at h ⊢
      omega
    · rw [if_neg h, decide_eq_decide]
      simp only [ADC_CALIBRATION_TIMEOUT] at h ⊢
      omega

/-- C2 (amended).  If self-calibration does not complete within the
`ADC_CALIBRATION_TIMEOUT` iteration bound, `HAL_ADCEx_Calibration_Start`
returns `HAL_ERROR` (not `HAL_TIMEOUT`), leaves the instance marked
`HAL_ADC_STATE_ERROR_INTERNAL`, and never returns success. -/
theorem calibration_timeout_yields_error (s : ADC) (sd : SingleDiff)
    (hl : s.lock = false) (hr : s.regOngoing = false) (hi : s.injOngoing = false)
    (hfd : s.faultDisable = false)
    (hc : ADC_CALIBRATION_TIMEOUT ≤ s.calibCycles) :
    (HAL_ADCEx_Calibration_Start s sd).1 = .error ∧
    (HAL_ADCEx_Calibration_Start s sd).2.stErrInternal = true ∧
    (HAL_ADCEx_Calibration_Start s sd).1 ≠ .ok := by
  have hw : calibWait s.calibCycles 0 = false := by
    rw [calibWait_eq, decide_eq_false_iff_not]
    simp only [ADC_CALIBRATION_TIMEOUT] at hc ⊢
    omega
  unfold HAL_ADCEx_Calibration_Start
  simp only [hl, Bool.false_eq_true, if_false, ADC_Disable_idle_nofault, hr, hi, hfd,
    reduceIte, hw]
  refine ⟨?_, ?_, ?_⟩ <;> trivial

/-- Witness for the amended C2 at a concrete state whose calibration
takes exactly the bound. -/
theorem calibration_timeout_yields_error_witness :
    (HAL_ADCEx_Calibration_Start
        { adc0 with calibCycles := ADC_CALIBRATION_TIMEOUT } .single).1 = .error ∧
    (HAL_ADCEx_Calibration_Start
        { adc0 with calibCycles := ADC_CALIBRATION_TIMEOUT } .single).2.stErrInternal = true ∧
    (HAL_ADCEx_Calibration_Start
        { adc0 with calibCycles := ADC_CALIBRATION_TIMEOUT } .single).1 ≠ .ok :=
  calibration_timeout_yields_error _ _ rfl rfl rfl rfl (le_refl _)

/-- Counterexample to C2 as stated: at this state calibration exceeds
the bound, yet the call returns `HAL_ERROR`, not the `HAL_TIMEOUT`
("Timeout result") the claim requires. -/
theorem calibration_timeout_status_is_error_not_timeout :
    (HAL_ADCEx_Calibration_Start
        { adc0 with calibCycles := ADC_CALIBRATION_TIMEOUT } .single).1 ≠ .timeout ∧
    (HAL_ADCEx_Calibration_Start
        { adc0 with calibCycles := ADC_CALIBRATION_TIMEOUT } .single).1 = .error := by
  have h := calibration_timeout_yields_error
    { adc0 with calibCycles := ADC_CALIBRATION_TIMEOUT } .single rfl rfl rfl rfl (le_refl _)
  exact ⟨by rw [h.1]; decide, h.1⟩

/-- C4.  `HAL_ADCEx_InjectedStop`, after a confirmed stop of the
injected conversion: if no regular conversion is ongoing it disables the
analog core, clears both busy bits and sets ready; if a regular
conversion is still ongoing it clears only the injected-busy bit and
leaves the analog core as it was (enabled). -/
theorem injected_stop_disable_only_if_regular_idle (s : ADC)
    (hl : s.lock = false) (hfs : s.faultStop = false) (hfd : s.faultDisable = false) :
    (s.regOngoing = false →
       (HAL_ADCEx_InjectedStop s).1 = .ok ∧
       (HAL_ADCEx_InjectedStop s).2.adcEnabled = false ∧
       (HAL_ADCEx_InjectedStop s).2.stInjBusy = false ∧
       (HAL_ADCEx_InjectedStop s).2.stRegBusy = false ∧
       (HAL_ADCEx_InjectedStop s).2.stReady = true) ∧
    (s.regOngoing = true →
       (HAL_ADCEx_InjectedStop s).1 = .ok ∧
       (HAL_ADCEx_InjectedStop s).2.adcEnabled = s.adcEnabled ∧
       (HAL_ADCEx_InjectedStop s).2.stInjBusy = false ∧
       (HAL_ADCEx_InjectedStop s).2.stRegBusy = s.stRegBusy ∧
       (HAL_ADCEx_InjectedStop s).2.stReady = s.stReady) := by
  constructor
  · intro hreg
    unfold HAL_ADCEx_InjectedStop
    simp only [hl, Bool.false_eq_true, if_false, ADC_ConversionStop_inj_nofault, hfs,
      hreg, ADC_Disable_idle_nofault, hfd, reduceIte, Bool.not_false, if_true]
    refine ⟨?_, ?_, ?_, ?_, ?_⟩ <;> trivial
  · intro hreg
    unfold HAL_ADCEx_InjectedStop
    simp only [hl, Bool.false_eq_true, if_false, ADC_ConversionStop_inj_nofault, hfs,
      hreg, reduceIte, Bool.not_true]
    refine ⟨?_, ?_, ?_, ?_, ?_⟩ <;> trivial

/-- A concrete state with the analog core enabled, an injected
conversion ongoing and the regular group idle. -/
def adcStop0 : ADC :=
  { adc0 with adcEnabled := true, injOngoing := true, stInjBusy := true }

/-- Witness for C4 at a concrete enabled, regular-idle state: the stop
confirms, the core is disabled and the instance is marked ready. -/
theorem injected_stop_disable_only_if_regular_idle_witness :
    ((adcStop0.regOngoing = false →
       (HAL_ADCEx_InjectedStop adcStop0).1 = .ok ∧
       (HAL_ADCEx_InjectedStop adcStop0).2.adcEnabled = false ∧
       (HAL_ADCEx_InjectedStop adcStop0).2.stInjBusy = false ∧
       (HAL_ADCEx_InjectedStop adcStop0).2.stRegBusy = false ∧
       (HAL_ADCEx_InjectedStop adcStop0).2.stReady = true) ∧
    (adcStop0.regOngoing = true →
       (HAL_ADCEx_InjectedStop adcStop0).1 = .ok ∧
       (HAL_ADCEx_InjectedStop adcStop0).2.adcEnabled = adcStop0.adcEnabled ∧
       (HAL_ADCEx_InjectedStop adcStop0).2.stInjBusy = false ∧
       (HAL_ADCEx_InjectedStop adcStop0).2.stRegBusy = adcStop0.stRegBusy ∧
       (HAL_ADCEx_InjectedStop adcStop0).2.stReady = adcStop0.stReady)) :=
  injected_stop_disable_only_if_regular_idle adcStop0 rfl rfl rfl

/-- C5 (amended).  Provided no injected conversion is ongoing,
`HAL_ADCEx_InjectedStart` and `HAL_ADCEx_InjectedStart_IT` fail with a
configuration error whenever `JQDIS` is clear and the `JEXTEN` field of
`JSQR` is zero: they set the config-error state bit, return `HAL_ERROR`,
and change nothing else (in particular the ADC is not enabled and no
conversion is started). -/
theorem injected_start_queue_deadlock_config_error (s : ADC)
    (hinj : s.injOngoing = false) (hjq : s.cfgr.jqdis = false)
    (hext : jexten s.jsqr = 0) :
    HAL_ADCEx_InjectedStart s = (.error, { s with stErrConfig := true }) ∧
    HAL_ADCEx_InjectedStart_IT s = (.error, { s with stErrConfig := true }) :=
  ⟨InjectedStart_cfgErr s hinj (by simp [hext, hjq]),
   InjectedStart_IT_cfgErr s hinj (by simp [hext, hjq])⟩

/-- A concrete state with the injected queue enabled (`JQDIS` clear) and
an empty context register (`JEXTEN` zero). -/
def adcDeadlock0 : ADC :=
  { adc0 with cfgr := { adc0.cfgr with jqdis := false } }

/-- Witness for the amended C5. -/
theorem injected_start_queue_deadlock_config_error_witness :
    HAL_ADCEx_InjectedStart adcDeadlock0
        = (.error, { adcDeadlock0 with stErrConfig := true }) ∧
    HAL_ADCEx_InjectedStart_IT adcDeadlock0
        = (.error, { adcDeadlock0 with stErrConfig := true }) :=
  injected_start_queue_deadlock_config_error adcDeadlock0 rfl rfl rfl

/-- Counterexample to C5 as stated: with `JQDIS` clear and `JEXTEN`
zero but an injected conversion ongoing, the start call returns
`HAL_BUSY` (not an error) and does not set the config-error bit — the
busy rejection takes precedence over the queue-deadlock check. -/
theorem injected_start_busy_precedes_deadlock_check :
    (HAL_ADCEx_InjectedStart { adcDeadlock0 with injOngoing := true }).1 = .busy ∧
    (HAL_ADCEx_InjectedStart { adcDeadlock0 with injOngoing := true }).1 ≠ .error ∧
    (HAL_ADCEx_InjectedStart { adcDeadlock0 with injOngoing := true }).2.stErrConfig
      = false := by
  refine ⟨?_, ?_, ?_⟩ <;> decide

/-- C8.  For every calibration factor `v` in the 7-bit range,
`HAL_ADCEx_Calibration_SetValue` followed by
`HAL_ADCEx_Calibration_GetValue` returns `v` when the instance is
enabled with no conversion ongoing on either group; otherwise `SetValue`
returns `HAL_ERROR` with the config-error state bit set and leaves both
stored calibration factors unchanged. -/
theorem calibration_factor_roundtrip (s : ADC) (mode : SingleDiff) (v : Nat)
    (hl : s.lock = false) (hv : v < 128) :
    ((s.adcEnabled = true ∧ s.regOngoing = false ∧ s.injOngoing = false) →
       (HAL_ADCEx_Calibration_SetValue s mode v).1 = .ok ∧
       HAL_ADCEx_Calibration_GetValue
         (HAL_ADCEx_Calibration_SetValue s mode v).2 mode = v) ∧
    (¬(s.adcEnabled = true ∧ s.regOngoing = false ∧ s.injOngoing = false) →
       (HAL_ADCEx_Calibration_SetValue s mode v).1 = .error ∧
       (HAL_ADCEx_Calibration_SetValue s mode v).2.stErrConfig = true ∧
       (HAL_ADCEx_Calibration_SetValue s mode v).2.calFactS = s.calFactS ∧
       (HAL_ADCEx_Calibration_SetValue s mode v).2.calFactD = s.calFactD) := by
  constructor
  · rintro ⟨h1, h2, h3⟩
    unfold HAL_ADCEx_Calibration_SetValue HAL_ADCEx_Calibration_GetValue
      LL_ADC_SetCalibrationFactor LL_ADC_GetCalibrationFactor
    cases mode <;>
      simp only [hl, h1, h2, h3, Bool.false_eq_true, if_false, Bool.not_false,
        Bool.and_self, Bool.and_true, Bool.true_and, if_true, reduceIte] <;>
      exact ⟨trivial, Nat.mod_eq_of_lt hv⟩
  · intro h
    unfold HAL_ADCEx_Calibration_SetValue
    have hc : (s.adcEnabled && !s.regOngoing && !s.injOngoing) = false := by
      rcases ha : s.adcEnabled <;> rcases hr : s.regOngoing <;>
        rcases hi : s.injOngoing <;> simp_all
    simp only [hl, Bool.false_eq_true, if_false, hc, reduceIte]
    refine ⟨?_, ?_, ?_, ?_⟩ <;> trivial

/-- Witness for C8 at a concrete enabled idle state and `v = 100`. -/
theorem calibration_factor_roundtrip_witness :
    (({ adc0 with adcEnabled := true } : ADC).adcEnabled = true ∧
       ({ adc0 with adcEnabled := true } : ADC).regOngoing = false ∧
       ({ adc0 with adcEnabled := true } : ADC).injOngoing = false →
       (HAL_ADCEx_Calibration_SetValue { adc0 with adcEnabled := true } .single 100).1 = .ok ∧
       HAL_ADCEx_Calibration_GetValue
         (HAL_ADCEx_Calibration_SetValue { adc0 with adcEnabled := true } .single 100).2
         .single = 100) ∧
    (¬(({ adc0 with adcEnabled := true } : ADC).adcEnabled = true ∧
        ({ adc0 with adcEnabled := true } : ADC).regOngoing = false ∧
        ({ adc0 with adcEnabled := true } : ADC).injOngoing = false) →
       (HAL_ADCEx_Calibration_SetValue { adc0 with adcEnabled := true } .single 100).1
         = .error ∧
       (HAL_ADCEx_Calibration_SetValue { adc0 with adcEnabled := true } .single 100).2.stErrConfig
         = true ∧
       (HAL_ADCEx_Calibration_SetValue { adc0 with adcEnabled := true } .single 100).2.calFactS
         = ({ adc0 with adcEnabled := true } : ADC).calFactS ∧
       (HAL_ADCEx_Calibration_SetValue { adc0 with adcEnabled := true } .single 100).2.calFactD
         = ({ adc0 with adcEnabled := true } : ADC).calFactD) :=
  calibration_factor_roundtrip { adc0 with adcEnabled := true } .single 100 rfl
    (by decide)

/-- C9.  When `HAL_ADCEx_InjectedPollForConversion` completes while
polling the end-of-sequence flag (`EOCSelection = ADC_EOC_SEQ_CONV`,
`JEOS` raised), the `JEOS` flag is left uncleared exactly when the
low-power auto-wait bit `AUTDLY` of the relevant configuration register
is set; with auto-wait disabled the flag is cleared on completion. -/
theorem injected_poll_autowait_keeps_jeos (s : ADC) (timeout : Nat)
    (hseq : s.eocSeq = true) (hflag : s.isrJEOS = true) :
    ((if notMMSlaveInjected s then s.cfgr else s.masterCfgr).autdly = true →
       ∃ r, HAL_ADCEx_InjectedPollForConversion s timeout = some r ∧
         r.1 = .ok ∧ r.2.isrJEOS = true) ∧
    ((if notMMSlaveInjected s then s.cfgr else s.masterCfgr).autdly = false →
       ∃ r, HAL_ADCEx_InjectedPollForConversion s timeout = some r ∧
         r.1 = .ok ∧ r.2.isrJEOS = false) := by
  constructor
  · intro ha
    unfold HAL_ADCEx_InjectedPollForConversion
    simp only [hseq, hflag, Bool.not_true, Bool.false_eq_true, if_false, if_true,
      reduceIte]
    refine ⟨_, rfl, rfl, ?_⟩
    by_cases hm : notMMSlaveInjected s = true <;>
      simp_all [ite_self, hflag]
  · intro ha
    unfold HAL_ADCEx_InjectedPollForConversion
    simp only [hseq, hflag, Bool.not_true, Bool.false_eq_true, if_false, if_true,
      reduceIte]
    refine ⟨_, rfl, rfl, ?_⟩
    by_cases hm : notMMSlaveInjected s = true <;>
      simp_all [ite_self]

/-- A concrete state polling in sequence mode with `JEOS` raised and
the low-power auto-wait feature enabled. -/
def adcPoll0 : ADC :=
  { adc0 with isrJEOS := true, isrJEOC := true,
              cfgr := { adc0.cfgr with autdly := true } }

/-- Witness for C9: a completed sequence poll with auto-wait enabled
leaves `JEOS` set. -/
theorem injected_poll_autowait_keeps_jeos_witness :
    ((if notMMSlaveInjected adcPoll0 then adcPoll0.cfgr else adcPoll0.masterCfgr).autdly
        = true →
       ∃ r, HAL_ADCEx_InjectedPollForConversion adcPoll0 10 = some r ∧
         r.1 = .ok ∧ r.2.isrJEOS = true) ∧
    ((if notMMSlaveInjected adcPoll0 then adcPoll0.cfgr else adcPoll0.masterCfgr).autdly
        = false →
       ∃ r, HAL_ADCEx_InjectedPollForConversion adcPoll0 10 = some r ∧
         r.1 = .ok ∧ r.2.isrJEOS = false) :=
  injected_poll_autowait_keeps_jeos adcPoll0 10 rfl rfl

/-! ### Frame lemmas: the sections of `HAL_ADCEx_InjectedConfigChannel`
after the sequencer do not touch the context staging fields -/

theorem injCfgQueueMode_frame (s : ADC) (c : InjConf) :
    (injCfgQueueMode s c).jsqr = s.jsqr ∧
    (injCfgQueueMode s c).injChannelCount = s.injChannelCount ∧
    (injCfgQueueMode s c).injContextQueue = s.injContextQueue ∧
    (injCfgQueueMode s c).scanConvModeEnabled = s.scanConvModeEnabled ∧
    (injCfgQueueMode s c).lock = s.lock := by
  unfold injCfgQueueMode
  refine ⟨?_, ?_, ?_, ?_, ?_⟩ <;> simp [ite_self]

set_option maxHeartbeats 4000000 in
theorem injCfgIdleParams_frame (s : ADC) (c : InjConf) :
    (injCfgIdleParams s c).2.jsqr = s.jsqr ∧
    (injCfgIdleParams s c).2.injChannelCount = s.injChannelCount ∧
    (injCfgIdleParams s c).2.injContextQueue = s.injContextQueue ∧
    (injCfgIdleParams s c).2.scanConvModeEnabled = s.scanConvModeEnabled ∧
    (injCfgIdleParams s c).2.lock = s.lock := by
  unfold injCfgIdleParams
  refine ⟨?_, ?_, ?_, ?_, ?_⟩ <;> simp [ite_self]

theorem injCfgSingleDiff_frame (s : ADC) (c : InjConf) :
    (injCfgSingleDiff s c).jsqr = s.jsqr ∧
    (injCfgSingleDiff s c).injChannelCount = s.injChannelCount ∧
    (injCfgSingleDiff s c).injContextQueue = s.injContextQueue ∧
    (injCfgSingleDiff s c).scanConvModeEnabled = s.scanConvModeEnabled ∧
    (injCfgSingleDiff s c).lock = s.lock := by
  unfold injCfgSingleDiff
  refine ⟨?_, ?_, ?_, ?_, ?_⟩ <;> simp [ite_self]

theorem injCfgInternalCh_frame (s : ADC) (c : InjConf) :
    (injCfgInternalCh s c).jsqr = s.jsqr ∧
    (injCfgInternalCh s c).injChannelCount = s.injChannelCount ∧
    (injCfgInternalCh s c).injContextQueue = s.injContextQueue ∧
    (injCfgInternalCh s c).scanConvModeEnabled = s.scanConvModeEnabled ∧
    (injCfgInternalCh s c).lock = s.lock := by
  unfold injCfgInternalCh
  refine ⟨?_, ?_, ?_, ?_, ?_⟩ <;> simp [ite_self]

/-- The sequencer section only writes the context staging fields. -/
theorem injCfgSequencer_frame (s : ADC) (c : InjConf) :
    (injCfgSequencer s c).scanConvModeEnabled = s.scanConvModeEnabled ∧
    (injCfgSequencer s c).lock = s.lock := by
  unfold injCfgSequencer
  constructor <;> simp [ite_self]

/-- The context staging fields after a full
`HAL_ADCEx_InjectedConfigChannel` call (on an unlocked handle) are those
produced by its sequencer section, and the handle comes back unlocked. -/
theorem InjectedConfigChannel_seq_fields (s : ADC) (c : InjConf) (hl : s.lock = false) :
    (HAL_ADCEx_InjectedConfigChannel s c).2.jsqr
      = (injCfgSequencer { s with lock := true } c).jsqr ∧
    (HAL_ADCEx_InjectedConfigChannel s c).2.injChannelCount
      = (injCfgSequencer { s with lock := true } c).injChannelCount ∧
    (HAL_ADCEx_InjectedConfigChannel s c).2.injContextQueue
      = (injCfgSequencer { s with lock := true } c).injContextQueue ∧
    (HAL_ADCEx_InjectedConfigChannel s c).2.scanConvModeEnabled
      = s.scanConvModeEnabled ∧
    (HAL_ADCEx_InjectedConfigChannel s c).2.lock = false := by
  unfold HAL_ADCEx_InjectedConfigChannel
  rw [if_neg (by simp [hl])]
  obtain ⟨q1, q2, q3, q4, _⟩ := injCfgQueueMode_frame (injCfgSequencer { s with lock := true } c) c
  obtain ⟨i1, i2, i3, i4, _⟩ :=
    injCfgIdleParams_frame (injCfgQueueMode (injCfgSequencer { s with lock := true } c) c) c
  obtain ⟨d1, d2, d3, d4, _⟩ :=
    injCfgSingleDiff_frame
      (injCfgIdleParams (injCfgQueueMode (injCfgSequencer { s with lock := true } c) c) c).2 c
  obtain ⟨n1, n2, n3, n4, _⟩ :=
    injCfgInternalCh_frame
      (injCfgSingleDiff
        (injCfgIdleParams (injCfgQueueMode (injCfgSequencer { s with lock := true } c) c) c).2 c) c
  obtain ⟨f4, _⟩ := injCfgSequencer_frame ({ s with lock := true }) c
  refine ⟨?_, ?_, ?_, ?_, rfl⟩
  · exact (n1.trans d1).trans (i1.trans q1)
  · exact (n2.trans d2).trans (i2.trans q2)
  · exact (n3.trans d3).trans (i3.trans q3)
  · exact ((n4.trans d4).trans (i4.trans q4)).trans f4

/-- Sequencer, first call of a context of more than one rank (scan mode
enabled): the staging count is initialized and decremented, and `JSQR`
is not written. -/
theorem injCfgSequencer_first (s : ADC) (c : InjConf)
    (hscan : s.scanConvModeEnabled = true) (hn : 1 < c.nbrOfConversion)
    (h0 : s.injChannelCount = 0) :
    (injCfgSequencer s c).jsqr = s.jsqr ∧
    (injCfgSequencer s c).injChannelCount = c.nbrOfConversion - 1 := by
  have hne : (c.nbrOfConversion == 1) = false := by simp; omega
  have h0' : (s.injChannelCount == 0) = true := by simp [h0]
  have hcm : (c.nbrOfConversion - 1 == 0) = false := by simp; omega
  unfold injCfgSequencer
  simp only [hscan, hne, h0', hcm, Bool.not_true, Bool.false_or, Bool.false_eq_true,
    if_false, if_true, reduceIte]
  exact ⟨trivial, trivial⟩

/-- Sequencer, intermediate call (at least two ranks still to supply):
the count decrements and `JSQR` is not written. -/
theorem injCfgSequencer_mid (s : ADC) (c : InjConf)
    (hscan : s.scanConvModeEnabled = true) (hne1 : c.nbrOfConversion ≠ 1)
    (hk : 2 ≤ s.injChannelCount) :
    (injCfgSequencer s c).jsqr = s.jsqr ∧
    (injCfgSequencer s c).injChannelCount = s.injChannelCount - 1 := by
  have hne : (c.nbrOfConversion == 1) = false := by simp [hne1]
  have h0' : (s.injChannelCount == 0) = false := by simp; omega
  have hcm : (s.injChannelCount - 1 == 0) = false := by simp; omega
  unfold injCfgSequencer
  simp only [hscan, hne, h0', hcm, Bool.not_true, Bool.false_or, Bool.false_eq_true,
    if_false, if_true, reduceIte]
  exact ⟨trivial, trivial⟩

/-- Sequencer, last call of the context (one rank remaining): the count
reaches zero and the fully-built staged context is written to `JSQR`. -/
theorem injCfgSequencer_last (s : ADC) (c : InjConf)
    (hscan : s.scanConvModeEnabled = true) (hne1 : c.nbrOfConversion ≠ 1)
    (hk : s.injChannelCount = 1) :
    (injCfgSequencer s c).injChannelCount = 0 ∧
    (injCfgSequencer s c).jsqr
      = modifyReg s.jsqr ADC_JSQR_FIELDS ((injCfgSequencer s c).injContextQueue) := by
  have hne : (c.nbrOfConversion == 1) = false := by simp [hne1]
  have h0' : (s.injChannelCount == 0) = false := by simp [hk]
  have hcm : (s.injChannelCount - 1 == 0) = true := by simp [hk]
  unfold injCfgSequencer
  simp only [hscan, hne, h0', hcm, Bool.not_true, Bool.false_or, Bool.false_eq_true,
    if_false, if_true, reduceIte]
  refine ⟨?_, trivial⟩
  omega

/-- First `HAL_ADCEx_InjectedConfigChannel` call of a multi-rank
context. -/
theorem cfgCall_first (s : ADC) (c : InjConf) (hl : s.lock = false)
    (hscan : s.scanConvModeEnabled = true) (hn : 1 < c.nbrOfConversion)
    (h0 : s.injChannelCount = 0) :
    (HAL_ADCEx_InjectedConfigChannel s c).2.jsqr = s.jsqr ∧
    (HAL_ADCEx_InjectedConfigChannel s c).2.injChannelCount = c.nbrOfConversion - 1 ∧
    (HAL_ADCEx_InjectedConfigChannel s c).2.lock = false ∧
    (HAL_ADCEx_InjectedConfigChannel s c).2.scanConvModeEnabled = true := by
  obtain ⟨e1, e2, _, e4, e5⟩ := InjectedConfigChannel_seq_fields s c hl
  obtain ⟨f1, f2⟩ := injCfgSequencer_first { s with lock := true } c hscan hn h0
  exact ⟨e1.trans f1, e2.trans f2, e5, e4.trans hscan⟩

/-- Intermediate `HAL_ADCEx_InjectedConfigChannel` call of a multi-rank
context. -/
theorem cfgCall_mid (s : ADC) (c : InjConf) (hl : s.lock = false)
    (hscan : s.scanConvModeEnabled = true) (hne1 : c.nbrOfConversion ≠ 1)
    (hk : 2 ≤ s.injChannelCount) :
    (HAL_ADCEx_InjectedConfigChannel s c).2.jsqr = s.jsqr ∧
    (HAL_ADCEx_InjectedConfigChannel s c).2.injChannelCount = s.injChannelCount - 1 ∧
    (HAL_ADCEx_InjectedConfigChannel s c).2.lock = false ∧
    (HAL_ADCEx_InjectedConfigChannel s c).2.scanConvModeEnabled = true := by
  obtain ⟨e1, e2, _, e4, e5⟩ := InjectedConfigChannel_seq_fields s c hl
  obtain ⟨f1, f2⟩ := injCfgSequencer_mid { s with lock := true } c hscan hne1 hk
  exact ⟨e1.trans f1, e2.trans f2, e5, e4.trans hscan⟩

/-- Final `HAL_ADCEx_InjectedConfigChannel` call of a multi-rank
context: the staged context is committed to `JSQR`. -/
theorem cfgCall_last (s : ADC) (c : InjConf) (hl : s.lock = false)
    (hscan : s.scanConvModeEnabled = true) (hne1 : c.nbrOfConversion ≠ 1)
    (hk : s.injChannelCount = 1) :
    (HAL_ADCEx_InjectedConfigChannel s c).2.injChannelCount = 0 ∧
    (HAL_ADCEx_InjectedConfigChannel s c).2.jsqr
      = modifyReg s.jsqr ADC_JSQR_FIELDS
          ((HAL_ADCEx_InjectedConfigChannel s c).2.injContextQueue) := by
  obtain ⟨e1, e2, e3, _, _⟩ := InjectedConfigChannel_seq_fields s c hl
  obtain ⟨f1, f2⟩ := injCfgSequencer_last { s with lock := true } c hscan hne1 hk
  refine ⟨e2.trans f1, ?_⟩
  rw [e1, e3, f2]

/-- Apply a list of injected-channel configuration calls in order. -/
def runInjConfigs (s : ADC) (cs : List InjConf) : ADC :=
  cs.foldl (fun s c => (HAL_ADCEx_InjectedConfigChannel s c).2) s

/-- Walking a context under construction: while fewer calls than the
remaining-channel count are applied, `JSQR` is untouched; applying
exactly as many calls as the remaining count commits the accumulated
context to `JSQR` on the last call. -/
theorem runInjConfigs_building (cs : List InjConf) (s : ADC) (n : Nat)
    (hscan : s.scanConvModeEnabled = true) (hl : s.lock = false) (hn : 1 < n)
    (hall : ∀ c ∈ cs, c.nbrOfConversion = n)
    (hlen : cs.length ≤ s.injChannelCount) (hpos : 0 < s.injChannelCount) :
    (runInjConfigs s cs).injChannelCount = s.injChannelCount - cs.length ∧
    (runInjConfigs s cs).lock = false ∧
    (runInjConfigs s cs).scanConvModeEnabled = true ∧
    (runInjConfigs s cs).jsqr =
      (if cs.length < s.injChannelCount then s.jsqr
       else modifyReg s.jsqr ADC_JSQR_FIELDS ((runInjConfigs s cs).injContextQueue)) := by
  induction cs generalizing s with
  | nil =>
    refine ⟨by simp [runInjConfigs], hl, hscan, ?_⟩
    rw [if_pos (by simpa using hpos)]
    rfl
  | cons c cs ih =>
    have hne1 : c.nbrOfConversion ≠ 1 := by
      have := hall c (List.mem_cons_self c cs)
      omega
    have hstep : runInjConfigs s (c :: cs)
        = runInjConfigs (HAL_ADCEx_InjectedConfigChannel s c).2 cs := rfl
    by_cases hone : s.injChannelCount = 1
    · have hcs : cs = [] := by
        have hlen' := hlen
        simp only [List.length_cons, hone] at hlen'
        exact List.length_eq_zero.mp (by omega)
      subst hcs
      obtain ⟨g1, g2⟩ := cfgCall_last s c hl hscan hne1 hone
      obtain ⟨_, _, _, e4, e5⟩ := InjectedConfigChannel_seq_fields s c hl
      rw [hstep]
      refine ⟨?_, ?_, ?_, ?_⟩
      · simpa [runInjConfigs, hone] using g1
      · simpa [runInjConfigs] using e5
      · simpa [runInjConfigs] using e4.trans hscan
      · rw [if_neg (by simp [hone])]
        simpa [runInjConfigs] using g2
    · have hk : 2 ≤ s.injChannelCount := by omega
      obtain ⟨g1, g2, g3, g4⟩ := cfgCall_mid s c hl hscan hne1 hk
      have hlen' := hlen
      simp only [List.length_cons] at hlen'
      obtain ⟨w1, w2, w3, w4⟩ := ih (HAL_ADCEx_InjectedConfigChannel s c).2 g4 g3
        (fun c' hc' => hall c' (List.mem_cons_of_mem _ hc'))
        (by rw [g2]; omega) (by rw [g2]; omega)
      rw [hstep]
      refine ⟨?_, w2, w3, ?_⟩
      · rw [w1, g2]
        simp only [List.length_cons]
        omega
      · rw [w4, g2, g1]
        by_cases hfin : cs.length < s.injChannelCount - 1
        · rw [if_pos hfin, if_pos (by simp only [List.length_cons]; omega)]
        · rw [if_neg hfin, if_neg (by simp only [List.length_cons]; omega)]

/-- C3.  Injected-context commit is atomic: for an `n`-rank context
(`n > 1`, scan mode enabled) built over `n` calls to
`HAL_ADCEx_InjectedConfigChannel` starting from an empty staging area,
the hardware context register `JSQR` is not modified by any of the first
`n - 1` calls; it is written exactly once, on the call at which the
remaining-channel count reaches 0, with the fully accumulated staged
context. -/
theorem injected_context_commit_atomic (s : ADC) (cs : List InjConf) (n : Nat)
    (hl : s.lock = false) (hscan : s.scanConvModeEnabled = true)
    (h0 : s.injChannelCount = 0) (hn : 1 < n) (hlen : cs.length = n)
    (hall : ∀ c ∈ cs, c.nbrOfConversion = n) :
    (∀ k, k < n → (runInjConfigs s (cs.take k)).jsqr = s.jsqr) ∧
    (runInjConfigs s cs).jsqr
      = modifyReg s.jsqr ADC_JSQR_FIELDS ((runInjConfigs s cs).injContextQueue) ∧
    (runInjConfigs s cs).injChannelCount = 0 := by
  cases cs with
  | nil =>
    simp only [List.length_nil] at hlen
    omega
  | cons c cs' =>
    have hcn : c.nbrOfConversion = n := hall c (List.mem_cons_self _ _)
    obtain ⟨f1, f2, f3, f4⟩ := cfgCall_first s c hl hscan (by omega) h0
    have hcs'len : cs'.length = n - 1 := by
      simp only [List.length_cons] at hlen
      omega
    have hall' : ∀ c' ∈ cs', c'.nbrOfConversion = n :=
      fun c' hc' => hall c' (List.mem_cons_of_mem _ hc')
    refine ⟨?_, ?_, ?_⟩
    · intro k hk
      cases k with
      | zero => rfl
      | succ m =>
        have hrun : runInjConfigs s ((c :: cs').take (m + 1))
            = runInjConfigs (HAL_ADCEx_InjectedConfigChannel s c).2 (cs'.take m) := rfl
        rw [hrun]
        have hlen2 : (cs'.take m).length = m := by
          rw [List.length_take]
          omega
        obtain ⟨_, _, _, w4⟩ := runInjConfigs_building (cs'.take m)
          (HAL_ADCEx_InjectedConfigChannel s c).2 n f4 f3 hn
          (fun c' hc' => hall' c' (List.take_subset _ _ hc'))
          (by rw [hlen2, f2, hcn] <;> omega) (by rw [f2, hcn] <;> omega)
        rw [w4, if_pos (by rw [hlen2, f2, hcn] <;> omega)]
        exact f1
    · have hrun : runInjConfigs s (c :: cs')
          = runInjConfigs (HAL_ADCEx_InjectedConfigChannel s c).2 cs' := rfl
      obtain ⟨_, _, _, w4⟩ := runInjConfigs_building cs'
        (HAL_ADCEx_InjectedConfigChannel s c).2 n f4 f3 hn hall'
        (by rw [hcs'len, f2, hcn] <;> omega) (by rw [f2, hcn] <;> omega)
      rw [hrun, w4, if_neg (by rw [hcs'len, f2, hcn] <;> omega)]
      try rw [f1]
    · have hrun : runInjConfigs s (c :: cs')
          = runInjConfigs (HAL_ADCEx_InjectedConfigChannel s c).2 cs' := rfl
      obtain ⟨w1, _, _, _⟩ := runInjConfigs_building cs'
        (HAL_ADCEx_InjectedConfigChannel s c).2 n f4 f3 hn hall'
        (by rw [hcs'len, f2, hcn] <;> omega) (by rw [f2, hcn] <;> omega)
      rw [hrun, w1, hcs'len, f2, hcn]
      try omega

/-- A software-triggered 3-rank injected context configuration for
rank `r` and channel `ch`. -/
def injConfC3 (r ch : Nat) : InjConf where
  channel := ch
  rank := r
  nbrOfConversion := 3
  trigSWStart := true
  trigSel := 0
  trigEdge := 0
  autoInjectedConv := false
  queueInjectedContext := false
  discontinuousConvMode := false
  differential := false
  samplingTime := 2
  offsetNumber := 0
  offset := 0
  offsetSign := 0
  offsetSaturation := false
  oversamplingMode := false
  ovsRatioField := 0
  ovsShiftField := 0

/-- The three configuration calls of a concrete 3-rank context. -/
def csC3 : List InjConf := [injConfC3 1 5, injConfC3 2 6, injConfC3 3 7]

/-- Witness for C3: after two of the three calls `JSQR` still holds its
previous value; the third call commits and zeroes the count. -/
theorem injected_context_commit_atomic_witness :
    (runInjConfigs adc0 (csC3.take 2)).jsqr = adc0.jsqr ∧
    (runInjConfigs adc0 csC3).jsqr
      = modifyReg adc0.jsqr ADC_JSQR_FIELDS ((runInjConfigs adc0 csC3).injContextQueue) ∧
    (runInjConfigs adc0 csC3).injChannelCount = 0 :=
  have h := injected_context_commit_atomic adc0 csC3 3 rfl rfl rfl (by decide)
    (by decide) (by decide)
  ⟨h.1 2 (by decide), h.2.1, h.2.2⟩

/-- C6 (amended).  In `HAL_ADCEx_MultiModeConfigChannel` (master handle
with an existing slave): if a regular conversion is ongoing on either
paired instance the whole call is rejected with a configuration error
and no `CCR` field is updated.  With both instances free of regular
conversions and a non-independent mode requested, the DMA-access fields
(`MDMA`/`DMACFG`) are written; the pairing-wide dual-mode selection and
inter-sample delay fields (`DUAL`/`DELAY`) are written only when both
instances are disabled, and are otherwise silently left unchanged while
the call still succeeds. -/
theorem multimode_config_field_constraints (s : ADC) (m : MultiModeConf)
    (hl : s.lock = false) (hslave : s.slaveExists = true) :
    ((s.regOngoing = true ∨ s.slaveRegOngoing = true) →
       (HAL_ADCEx_MultiModeConfigChannel s m).1 = .error ∧
       (HAL_ADCEx_MultiModeConfigChannel s m).2.stErrConfig = true ∧
       (HAL_ADCEx_MultiModeConfigChannel s m).2.ccrMdma = s.ccrMdma ∧
       (HAL_ADCEx_MultiModeConfigChannel s m).2.ccrDmacfg = s.ccrDmacfg ∧
       (HAL_ADCEx_MultiModeConfigChannel s m).2.ccrDual = s.ccrDual ∧
       (HAL_ADCEx_MultiModeConfigChannel s m).2.ccrDelay = s.ccrDelay) ∧
    ((s.regOngoing = false ∧ s.slaveRegOngoing = false ∧ m.modeIndependent = false) →
       (HAL_ADCEx_MultiModeConfigChannel s m).1 = .ok ∧
       (HAL_ADCEx_MultiModeConfigChannel s m).2.ccrMdma = m.dmaAccessMode ∧
       (HAL_ADCEx_MultiModeConfigChannel s m).2.ccrDmacfg = s.dmaContinuousRequests ∧
       ((s.adcEnabled = false ∧ s.slaveEnabled = false) →
          (HAL_ADCEx_MultiModeConfigChannel s m).2.ccrDual = m.modeVal ∧
          (HAL_ADCEx_MultiModeConfigChannel s m).2.ccrDelay = m.twoSamplingDelay) ∧
       ((s.adcEnabled = true ∨ s.slaveEnabled = true) →
          (HAL_ADCEx_MultiModeConfigChannel s m).2.ccrDual = s.ccrDual ∧
          (HAL_ADCEx_MultiModeConfigChannel s m).2.ccrDelay = s.ccrDelay)) := by
  constructor
  · intro hconv
    unfold HAL_ADCEx_MultiModeConfigChannel
    have hc : (!s.regOngoing && !s.slaveRegOngoing) = false := by
      rcases hconv with h | h <;> simp [h]
    simp only [hl, hslave, hc, Bool.not_true, Bool.false_eq_true, Bool.true_eq_false,
      if_false, if_true, reduceIte]
    refine ⟨?_, ?_, ?_, ?_, ?_, ?_⟩ <;> trivial
  · rintro ⟨hr, hsr, hmi⟩
    unfold HAL_ADCEx_MultiModeConfigChannel
    simp only [hl, hslave, hr, hsr, hmi, Bool.not_false, Bool.and_self,
      Bool.false_eq_true, Bool.true_eq_false, if_false, if_true, reduceIte]
    refine ⟨?_, ?_, ?_, ?_, ?_⟩
    · simp [ite_self]
    · simp [ite_self]
    · simp [ite_self]
    · rintro ⟨he, hse⟩
      simp [he, hse]
    · rintro (he | he) <;> simp [he]

/-- A non-independent multimode request: dual mode value 6, DMA access
mode 2, two-sampling delay 3. -/
def mmC6 : MultiModeConf where
  modeIndependent := false
  modeVal := 6
  dmaAccessMode := 2
  twoSamplingDelay := 3

/-- Witness for the amended C6 at a disabled, idle pair: the call
succeeds and writes both the DMA-access and the pairing-wide fields. -/
theorem multimode_config_field_constraints_witness :
    ((adc0.regOngoing = true ∨ adc0.slaveRegOngoing = true) →
       (HAL_ADCEx_MultiModeConfigChannel adc0 mmC6).1 = .error ∧
       (HAL_ADCEx_MultiModeConfigChannel adc0 mmC6).2.stErrConfig = true ∧
       (HAL_ADCEx_MultiModeConfigChannel adc0 mmC6).2.ccrMdma = adc0.ccrMdma ∧
       (HAL_ADCEx_MultiModeConfigChannel adc0 mmC6).2.ccrDmacfg = adc0.ccrDmacfg ∧
       (HAL_ADCEx_MultiModeConfigChannel adc0 mmC6).2.ccrDual = adc0.ccrDual ∧
       (HAL_ADCEx_MultiModeConfigChannel adc0 mmC6).2.ccrDelay = adc0.ccrDelay) ∧
    ((adc0.regOngoing = false ∧ adc0.slaveRegOngoing = false ∧
        mmC6.modeIndependent = false) →
       (HAL_ADCEx_MultiModeConfigChannel adc0 mmC6).1 = .ok ∧
       (HAL_ADCEx_MultiModeConfigChannel adc0 mmC6).2.ccrMdma = mmC6.dmaAccessMode ∧
       (HAL_ADCEx_MultiModeConfigChannel adc0 mmC6).2.ccrDmacfg
         = adc0.dmaContinuousRequests ∧
       ((adc0.adcEnabled = false ∧ adc0.slaveEnabled = false) →
          (HAL_ADCEx_MultiModeConfigChannel adc0 mmC6).2.ccrDual = mmC6.modeVal ∧
          (HAL_ADCEx_MultiModeConfigChannel adc0 mmC6).2.ccrDelay
            = mmC6.twoSamplingDelay) ∧
       ((adc0.adcEnabled = true ∨ adc0.slaveEnabled = true) →
          (HAL_ADCEx_MultiModeConfigChannel adc0 mmC6).2.ccrDual = adc0.ccrDual ∧
          (HAL_ADCEx_MultiModeConfigChannel adc0 mmC6).2.ccrDelay = adc0.ccrDelay)) :=
  multimode_config_field_constraints adc0 mmC6 rfl rfl

/-- Counterexample to C6 as stated: with the master enabled but idle and
a non-independent mode requested, the pairing-wide constraint ("mode and
delay settable only while both instances disabled") is violated, yet the
call returns `HAL_OK` with no config error, applies the DMA-access field
(`MDMA` becomes 2) and silently skips the dual-mode field (`DUAL` stays
0): a partial update instead of the claimed whole-call rejection. -/
theorem multimode_config_enabled_idle_not_rejected :
    (HAL_ADCEx_MultiModeConfigChannel { adc0 with adcEnabled := true } mmC6).1 = .ok ∧
    (HAL_ADCEx_MultiModeConfigChannel { adc0 with adcEnabled := true } mmC6).1
      ≠ .error ∧
    (HAL_ADCEx_MultiModeConfigChannel { adc0 with adcEnabled := true } mmC6).2.stErrConfig
      = false ∧
    (HAL_ADCEx_MultiModeConfigChannel { adc0 with adcEnabled := true } mmC6).2.ccrDual
      = 0 ∧
    (HAL_ADCEx_MultiModeConfigChannel { adc0 with adcEnabled := true } mmC6).2.ccrMdma
      = 2 := by
  refine ⟨?_, ?_, ?_, ?_, ?_⟩ <;> decide

/-- C7 (amended).  In `HAL_ADCEx_MultiModeStop_DMA` (master handle with
an existing slave): a hardware-confirmation failure of the initial
conversion stop, or of the bounded wait for both instances idle, returns
immediately with `HAL_ADC_STATE_ERROR_INTERNAL` set and does not attempt
the remaining cleanup steps (the shared DMA channel is not aborted, the
instances are not disabled); a failure of the shared DMA abort is
reported with `HAL_ADC_STATE_ERROR_DMA` and the error status, and still
attempts to disable both instances; with no failures the call disables
everything and reports success. -/
theorem multimode_stop_dma_error_paths (s : ADC)
    (hl : s.lock = false) (hslave : s.slaveExists = true) :
    (s.faultStop = true →
       (HAL_ADCEx_MultiModeStop_DMA s).1 = .timeout ∧
       (HAL_ADCEx_MultiModeStop_DMA s).2.stErrInternal = true ∧
       (HAL_ADCEx_MultiModeStop_DMA s).2.dmaActive = s.dmaActive ∧
       (HAL_ADCEx_MultiModeStop_DMA s).2.adcEnabled = s.adcEnabled ∧
       (HAL_ADCEx_MultiModeStop_DMA s).2.slaveEnabled = s.slaveEnabled) ∧
    ((s.faultStop = false ∧ s.slaveRegOngoing = true) →
       (HAL_ADCEx_MultiModeStop_DMA s).1 = .error ∧
       (HAL_ADCEx_MultiModeStop_DMA s).2.stErrInternal = true ∧
       (HAL_ADCEx_MultiModeStop_DMA s).2.dmaActive = s.dmaActive ∧
       (HAL_ADCEx_MultiModeStop_DMA s).2.adcEnabled = s.adcEnabled ∧
       (HAL_ADCEx_MultiModeStop_DMA s).2.slaveEnabled = s.slaveEnabled) ∧
    ((s.faultStop = false ∧ s.slaveRegOngoing = false ∧ s.faultDMAAbort = true ∧
        s.faultDisable = false ∧ s.faultSlaveDisable = false ∧
        s.slaveInjOngoing = false) →
       (HAL_ADCEx_MultiModeStop_DMA s).1 = .error ∧
       (HAL_ADCEx_MultiModeStop_DMA s).2.stErrDMA = true ∧
       (HAL_ADCEx_MultiModeStop_DMA s).2.adcEnabled = false ∧
       (HAL_ADCEx_MultiModeStop_DMA s).2.slaveEnabled = false) ∧
    ((s.faultStop = false ∧ s.slaveRegOngoing = false ∧ s.faultDMAAbort = false ∧
        s.faultDisable = false ∧ s.faultSlaveDisable = false ∧
        s.slaveInjOngoing = false) →
       (HAL_ADCEx_MultiModeStop_DMA s).1 = .ok ∧
       (HAL_ADCEx_MultiModeStop_DMA s).2.dmaActive = false ∧
       (HAL_ADCEx_MultiModeStop_DMA s).2.adcEnabled = false ∧
       (HAL_ADCEx_MultiModeStop_DMA s).2.slaveEnabled = false ∧
       (HAL_ADCEx_MultiModeStop_DMA s).2.stReady = true ∧
       (HAL_ADCEx_MultiModeStop_DMA s).2.stRegBusy = false ∧
       (HAL_ADCEx_MultiModeStop_DMA s).2.stInjBusy = false) := by
  refine ⟨?_, ?_, ?_, ?_⟩
  · intro hstop
    unfold HAL_ADCEx_MultiModeStop_DMA ADC_ConversionStop
    simp only [hl, hstop, Bool.false_eq_true, if_false, if_true, reduceIte]
    refine ⟨?_, ?_, ?_, ?_, ?_⟩ <;> trivial
  · rintro ⟨hstop, hsr⟩
    unfold HAL_ADCEx_MultiModeStop_DMA ADC_ConversionStop
    simp only [hl, hstop, hsr, hslave, Bool.false_eq_true, Bool.or_true, Bool.not_true,
      if_false, if_true, reduceIte]
    refine ⟨?_, ?_, ?_, ?_, ?_⟩ <;> trivial
  · rintro ⟨hstop, hsr, habort, hfd, hfsd, hsi⟩
    unfold HAL_ADCEx_MultiModeStop_DMA ADC_ConversionStop HAL_DMA_Abort ADC_Disable
      ADC_DisableSlave
    simp only [hl, hstop, hsr, hslave, habort, hfd, hfsd, hsi, Bool.false_eq_true,
      Bool.or_false, Bool.or_self, Bool.not_false, if_false, if_true, reduceIte]
    refine ⟨?_, ?_, ?_, ?_⟩ <;> simp [ite_self]
  · rintro ⟨hstop, hsr, habort, hfd, hfsd, hsi⟩
    unfold HAL_ADCEx_MultiModeStop_DMA ADC_ConversionStop HAL_DMA_Abort ADC_Disable
      ADC_DisableSlave
    simp only [hl, hstop, hsr, hslave, habort, hfd, hfsd, hsi, Bool.false_eq_true,
      Bool.or_false, Bool.or_self, Bool.not_false, if_false, if_true, reduceIte]
    refine ⟨?_, ?_, ?_, ?_, ?_, ?_, ?_⟩ <;> simp [ite_self]

/-- A concrete multimode master state: pair enabled, a regular transfer
active on the shared DMA channel. -/
def adcMM0 : ADC :=
  { adc0 with adcEnabled := true, slaveEnabled := true, regOngoing := true,
              stRegBusy := true, dmaActive := true }

/-- `adcMM0` with the slave instance stuck in a regular conversion. -/
def adcMMStuck : ADC :=
  { adcMM0 with slaveRegOngoing := true }

/-- Witness for the amended C7 on a fully healthy concrete state: the
joint stop succeeds and disables the pair. -/
theorem multimode_stop_dma_error_paths_witness :
    (adcMM0.faultStop = true →
       (HAL_ADCEx_MultiModeStop_DMA adcMM0).1 = .timeout ∧
       (HAL_ADCEx_MultiModeStop_DMA adcMM0).2.stErrInternal = true ∧
       (HAL_ADCEx_MultiModeStop_DMA adcMM0).2.dmaActive = adcMM0.dmaActive ∧
       (HAL_ADCEx_MultiModeStop_DMA adcMM0).2.adcEnabled = adcMM0.adcEnabled ∧
       (HAL_ADCEx_MultiModeStop_DMA adcMM0).2.slaveEnabled = adcMM0.slaveEnabled) ∧
    ((adcMM0.faultStop = false ∧ adcMM0.slaveRegOngoing = true) →
       (HAL_ADCEx_MultiModeStop_DMA adcMM0).1 = .error ∧
       (HAL_ADCEx_MultiModeStop_DMA adcMM0).2.stErrInternal = true ∧
       (HAL_ADCEx_MultiModeStop_DMA adcMM0).2.dmaActive = adcMM0.dmaActive ∧
       (HAL_ADCEx_MultiModeStop_DMA adcMM0).2.adcEnabled = adcMM0.adcEnabled ∧
       (HAL_ADCEx_MultiModeStop_DMA adcMM0).2.slaveEnabled = adcMM0.slaveEnabled) ∧
    ((adcMM0.faultStop = false ∧ adcMM0.slaveRegOngoing = false ∧
        adcMM0.faultDMAAbort = true ∧ adcMM0.faultDisable = false ∧
        adcMM0.faultSlaveDisable = false ∧ adcMM0.slaveInjOngoing = false) →
       (HAL_ADCEx_MultiModeStop_DMA adcMM0).1 = .error ∧
       (HAL_ADCEx_MultiModeStop_DMA adcMM0).2.stErrDMA = true ∧
       (HAL_ADCEx_MultiModeStop_DMA adcMM0).2.adcEnabled = false ∧
       (HAL_ADCEx_MultiModeStop_DMA adcMM0).2.slaveEnabled = false) ∧
    ((adcMM0.faultStop = false ∧ adcMM0.slaveRegOngoing = false ∧
        adcMM0.faultDMAAbort = false ∧ adcMM0.faultDisable = false ∧
        adcMM0.faultSlaveDisable = false ∧ adcMM0.slaveInjOngoing = false) →
       (HAL_ADCEx_MultiModeStop_DMA adcMM0).1 = .ok ∧
       (HAL_ADCEx_MultiModeStop_DMA adcMM0).2.dmaActive = false ∧
       (HAL_ADCEx_MultiModeStop_DMA adcMM0).2.adcEnabled = false ∧
       (HAL_ADCEx_MultiModeStop_DMA adcMM0).2.slaveEnabled = false ∧
       (HAL_ADCEx_MultiModeStop_DMA adcMM0).2.stReady = true ∧
       (HAL_ADCEx_MultiModeStop_DMA adcMM0).2.stRegBusy = false ∧
       (HAL_ADCEx_MultiModeStop_DMA adcMM0).2.stInjBusy = false) :=
  multimode_stop_dma_error_paths adcMM0 rfl rfl

/-- Counterexample to C7 as stated: when the bounded wait for both
instances idle fails (slave stuck converting), the call returns with the
internal error but the remaining cleanup steps are not attempted: the
shared DMA channel is still active and neither instance was disabled. -/
theorem multimode_stop_wait_failure_skips_cleanup :
    (HAL_ADCEx_MultiModeStop_DMA adcMMStuck).1 = .error ∧
    (HAL_ADCEx_MultiModeStop_DMA adcMMStuck).2.stErrInternal = true ∧
    (HAL_ADCEx_MultiModeStop_DMA adcMMStuck).2.dmaActive = true ∧
    (HAL_ADCEx_MultiModeStop_DMA adcMMStuck).2.adcEnabled = true ∧
    (HAL_ADCEx_MultiModeStop_DMA adcMMStuck).2.slaveEnabled = true := by
  refine ⟨?_, ?_, ?_, ?_, ?_⟩ <;> decide

/-- C10.  Every modelled public operation of the module that acquires
the per-instance handle lock releases it on every return path — success,
busy rejection, configuration error, timeout and internal error alike:
starting from an unlocked handle, each call returns with the handle
unlocked (for the polling call, on every terminating execution). -/
theorem public_ops_release_lock (s : ADC) (sd : SingleDiff) (v : Nat) (c : InjConf)
    (m : MultiModeConf) (t : Nat) (hl : s.lock = false) :
    (HAL_ADCEx_Calibration_Start s sd).2.lock = false ∧
    (HAL_ADCEx_Calibration_SetValue s sd v).2.lock = false ∧
    (HAL_ADCEx_InjectedStart s).2.lock = false ∧
    (HAL_ADCEx_InjectedStart_IT s).2.lock = false ∧
    (HAL_ADCEx_InjectedStop s).2.lock = false ∧
    (HAL_ADCEx_InjectedStop_IT s).2.lock = false ∧
    (HAL_ADCEx_InjectedConfigChannel s c).2.lock = false ∧
    (HAL_ADCEx_MultiModeConfigChannel s m).2.lock = false ∧
    (HAL_ADCEx_MultiModeStop_DMA s).2.lock = false ∧
    (HAL_ADCEx_RegularStop s).2.lock = false ∧
    (∀ r ∈ HAL_ADCEx_InjectedPollForConversion s t, r.2.lock = false) := by
  refine ⟨?_, ?_, ?_, ?_, ?_, ?_, ?_, ?_, ?_, ?_, ?_⟩
  · unfold HAL_ADCEx_Calibration_Start ADC_Disable
    simp [hl, ite_self]
  · unfold HAL_ADCEx_Calibration_SetValue LL_ADC_SetCalibrationFactor
    cases sd <;> simp [hl, ite_self]
  · unfold HAL_ADCEx_InjectedStart ADC_Enable
    simp [hl, ite_self]
  · unfold HAL_ADCEx_InjectedStart_IT ADC_Enable
    simp [hl, ite_self]
  · unfold HAL_ADCEx_InjectedStop ADC_ConversionStop ADC_Disable
    simp [hl, ite_self]
  · unfold HAL_ADCEx_InjectedStop_IT ADC_ConversionStop ADC_Disable
    simp [hl, ite_self]
  · obtain ⟨_, _, _, _, e5⟩ := InjectedConfigChannel_seq_fields s c hl
    exact e5
  · unfold HAL_ADCEx_MultiModeConfigChannel
    simp [hl, ite_self]
  · unfold HAL_ADCEx_MultiModeStop_DMA ADC_ConversionStop HAL_DMA_Abort ADC_Disable
      ADC_DisableSlave
    simp [hl, ite_self]
  · unfold HAL_ADCEx_RegularStop ADC_ConversionStop ADC_Disable
    simp [hl, ite_self]
  · intro r hr
    unfold HAL_ADCEx_InjectedPollForConversion at hr
    by_cases hf : (if s.eocSeq = true then s.isrJEOS else s.isrJEOC) = true
    · simp only [Option.mem_def, hf, Bool.not_true, Bool.false_eq_true, if_false,
        reduceIte, Option.some_inj] at hr
      subst hr
      simp [hl, ite_self]
    · simp only [Bool.not_eq_true] at hf
      simp only [Option.mem_def, hf, Bool.not_false, if_true, reduceIte] at hr
      by_cases ht : (t == HAL_MAX_DELAY) = true
      · rw [if_pos ht] at hr
        exact absurd hr (by simp)
      · simp only [Bool.not_eq_true] at ht
        rw [if_neg (by simp [ht])] at hr
        simp only [Option.some_inj] at hr
        subst hr
        rfl

/-- Witness for C10 at a concrete state and concrete arguments. -/
theorem public_ops_release_lock_witness :
    (HAL_ADCEx_Calibration_Start adc0 .single).2.lock = false ∧
    (HAL_ADCEx_Calibration_SetValue adc0 .single 5).2.lock = false ∧
    (HAL_ADCEx_InjectedStart adc0).2.lock = false ∧
    (HAL_ADCEx_InjectedStart_IT adc0).2.lock = false ∧
    (HAL_ADCEx_InjectedStop adc0).2.lock = false ∧
    (HAL_ADCEx_InjectedStop_IT adc0).2.lock = false ∧
    (HAL_ADCEx_InjectedConfigChannel adc0 (injConfC3 1 5)).2.lock = false ∧
    (HAL_ADCEx_MultiModeConfigChannel adc0 mmC6).2.lock = false ∧
    (HAL_ADCEx_MultiModeStop_DMA adc0).2.lock = false ∧
    (HAL_ADCEx_RegularStop adc0).2.lock = false :=
  have h := public_ops_release_lock adc0 .single 5 (injConfC3 1 5) mmC6 3 rfl
  ⟨h.1, h.2.1, h.2.2.1, h.2.2.2.1, h.2.2.2.2.1, h.2.2.2.2.2.1, h.2.2.2.2.2.2.1,
   h.2.2.2.2.2.2.2.1, h.2.2.2.2.2.2.2.2.1, h.2.2.2.2.2.2.2.2.2.1⟩
